import Mathlib

/-!
Shallow embedding of the ETL_PremierLeague_Pipeline repository
(`extract.py`, `transform.py`, `metrics.py`) and verification of the
frozen claims about its specification.

JSON-like Python values are modelled by `PyVal`; Python operations that
can raise are modelled as `Except PyErr`-valued functions.  Exception
handlers in the source become `match` on the `Except` result.
-/

namespace ETL

/-- A Python value as it occurs in the pipeline's JSON payloads:
`None`, booleans, integers, strings, lists, and string-keyed dicts
(JSON objects).  Floats do not occur in the modelled code paths. -/
inductive PyVal where
  | none
  | bool (b : Bool)
  | int (n : Int)
  | str (s : String)
  | list (xs : List PyVal)
  | dict (kvs : List (String × PyVal))

mutual

/-- Decidable equality on `PyVal` (hand-written: the nested inductive has
no derive handler in this toolchain). -/
def pvDecEq : (a b : PyVal) → Decidable (a = b)
  | .none, .none => .isTrue rfl
  | .none, .bool _ => .isFalse (fun h => PyVal.noConfusion h)
  | .none, .int _ => .isFalse (fun h => PyVal.noConfusion h)
  | .none, .str _ => .isFalse (fun h => PyVal.noConfusion h)
  | .none, .list _ => .isFalse (fun h => PyVal.noConfusion h)
  | .none, .dict _ => .isFalse (fun h => PyVal.noConfusion h)
  | .bool _, .none => .isFalse (fun h => PyVal.noConfusion h)
  | .bool a, .bool b =>
    if h : a = b then .isTrue (by rw [h]) else .isFalse (fun hh => h (by cases hh; rfl))
  | .bool _, .int _ => .isFalse (fun h => PyVal.noConfusion h)
  | .bool _, .str _ => .isFalse (fun h => PyVal.noConfusion h)
  | .bool _, .list _ => .isFalse (fun h => PyVal.noConfusion h)
  | .bool _, .dict _ => .isFalse (fun h => PyVal.noConfusion h)
  | .int _, .none => .isFalse (fun h => PyVal.noConfusion h)
  | .int _, .bool _ => .isFalse (fun h => PyVal.noConfusion h)
  | .int a, .int b =>
    if h : a = b then .isTrue (by rw [h]) else .isFalse (fun hh => h (by cases hh; rfl))
  | .int _, .str _ => .isFalse (fun h => PyVal.noConfusion h)
  | .int _, .list _ => .isFalse (fun h => PyVal.noConfusion h)
  | .int _, .dict _ => .isFalse (fun h => PyVal.noConfusion h)
  | .str _, .none => .isFalse (fun h => PyVal.noConfusion h)
  | .str _, .bool _ => .isFalse (fun h => PyVal.noConfusion h)
  | .str _, .int _ => .isFalse (fun h => PyVal.noConfusion h)
  | .str a, .str b =>
    if h : a = b then .isTrue (by rw [h]) else .isFalse (fun hh => h (by cases hh; rfl))
  | .str _, .list _ => .isFalse (fun h => PyVal.noConfusion h)
  | .str _, .dict _ => .isFalse (fun h => PyVal.noConfusion h)
  | .list _, .none => .isFalse (fun h => PyVal.noConfusion h)
  | .list _, .bool _ => .isFalse (fun h => PyVal.noConfusion h)
  | .list _, .int _ => .isFalse (fun h => PyVal.noConfusion h)
  | .list _, .str _ => .isFalse (fun h => PyVal.noConfusion h)
  | .list xs, .list ys =>
    match pvDecEqL xs ys with
    | .isTrue h => .isTrue (by rw [h])
    | .isFalse h => .isFalse (fun hh => h (by cases hh; rfl))
  | .list _, .dict _ => .isFalse (fun h => PyVal.noConfusion h)
  | .dict _, .none => .isFalse (fun h => PyVal.noConfusion h)
  | .dict _, .bool _ => .isFalse (fun h => PyVal.noConfusion h)
  | .dict _, .int _ => .isFalse (fun h => PyVal.noConfusion h)
  | .dict _, .str _ => .isFalse (fun h => PyVal.noConfusion h)
  | .dict _, .list _ => .isFalse (fun h => PyVal.noConfusion h)
  | .dict xs, .dict ys =>
    match pvDecEqD xs ys with
    | .isTrue h => .isTrue (by rw [h])
    | .isFalse h => .isFalse (fun hh => h (by cases hh; rfl))

/-- Decidable equality on lists of `PyVal`. -/
def pvDecEqL : (xs ys : List PyVal) → Decidable (xs = ys)
  | [], [] => .isTrue rfl
  | [], _ :: _ => .isFalse (fun h => List.noConfusion h)
  | _ :: _, [] => .isFalse (fun h => List.noConfusion h)
  | x :: xs, y :: ys =>
    match pvDecEq x y with
    | .isFalse h1 => .isFalse (fun hh => h1 (by cases hh; rfl))
    | .isTrue h1 =>
      match pvDecEqL xs ys with
      | .isTrue h2 => .isTrue (by rw [h1, h2])
      | .isFalse h2 => .isFalse (fun hh => h2 (by cases hh; rfl))

/-- Decidable equality on dict entry lists. -/
def pvDecEqD : (xs ys : List (String × PyVal)) → Decidable (xs = ys)
  | [], [] => .isTrue rfl
  | [], _ :: _ => .isFalse (fun h => List.noConfusion h)
  | _ :: _, [] => .isFalse (fun h => List.noConfusion h)
  | (k1, v1) :: xs, (k2, v2) :: ys =>
    if hk : k1 = k2 then
      match pvDecEq v1 v2 with
      | .isFalse h1 => .isFalse (fun hh => h1 (by cases hh; rfl))
      | .isTrue h1 =>
        match pvDecEqD xs ys with
        | .isTrue h2 => .isTrue (by rw [hk, h1, h2])
        | .isFalse h2 => .isFalse (fun hh => h2 (by cases hh; rfl))
    else .isFalse (fun hh => hk (by cases hh; rfl))

end

instance : DecidableEq PyVal := pvDecEq

/-- Python exception kinds raised by the modelled operations. -/
inductive PyErr where
  | typeError
  | keyError (k : String)
  | indexError
  | valueError
  | attributeError
deriving DecidableEq

/-- Python truthiness (`bool(v)`): `None`, `False`, `0`, `""`, `[]`, `{}`
are falsy, everything else truthy. -/
def PyVal.truthy : PyVal → Bool
  | .none => false
  | .bool b => b
  | .int n => n != 0
  | .str s => s != ""
  | .list xs => !xs.isEmpty
  | .dict kvs => !kvs.isEmpty

/-- First-match lookup in an association list modelling a Python dict. -/
def lookupStr (kvs : List (String × PyVal)) (k : String) : Option PyVal :=
  (kvs.find? (fun p => p.1 == k)).map (fun p => p.2)

/-- `str(v)` as far as the logged messages need it. -/
def pyStr : PyVal → String
  | .none => "None"
  | .bool b => if b then "True" else "False"
  | .int n => toString n
  | .str s => s
  | .list _ => "[...]"
  | .dict _ => "{...}"

/-- Rendering of a `PyErr`, standing in for Python's `str(e)`. -/
def pyErrStr : PyErr → String
  | .typeError => "TypeError"
  | .keyError k => s!"KeyError {k}"
  | .indexError => "IndexError"
  | .valueError => "ValueError"
  | .attributeError => "AttributeError"

/-- Prefix test on char lists (structural, so that concrete inputs
evaluate inside the kernel). -/
def charsPre : List Char → List Char → Bool
  | [], _ => true
  | _ :: _, [] => false
  | a :: as, b :: bs => a == b && charsPre as bs

/-- Substring test on char lists. -/
def charsSub (needle : List Char) : List Char → Bool
  | [] => needle.isEmpty
  | c :: cs => charsPre needle (c :: cs) || charsSub needle cs

/-- Python membership test `k in v` for a string `k`: key test on dicts,
element test on lists, substring test on strings, `TypeError` otherwise. -/
def pyContains (v : PyVal) (k : String) : Except PyErr Bool :=
  match v with
  | .dict kvs => .ok (kvs.any (fun p => p.1 == k))
  | .list xs => .ok (xs.any (fun x => x == .str k))
  | .str s => .ok (charsSub k.data s.data)
  | _ => .error .typeError

/-- Python subscript `v[k]` with a string key: dict lookup
(`KeyError` when absent), `TypeError` on every other container. -/
def pySubscriptS (v : PyVal) (k : String) : Except PyErr PyVal :=
  match v with
  | .dict kvs =>
    match lookupStr kvs k with
    | some x => .ok x
    | Option.none => .error (.keyError k)
  | _ => .error .typeError

/-- Python subscript `v[i]` with a non-negative integer index (the code
only uses the literal `0`).  Lists and strings index positionally
(`IndexError` out of range); a string-keyed dict raises `KeyError` for
an integer key; everything else raises `TypeError`. -/
def pySubscriptI (v : PyVal) (i : Nat) : Except PyErr PyVal :=
  match v with
  | .list xs =>
    match xs.get? i with
    | some x => .ok x
    | Option.none => .error .indexError
  | .str s =>
    match s.toList.get? i with
    | some c => .ok (.str c.toString)
    | Option.none => .error .indexError
  | .dict _ => .error (.keyError "int-key")
  | _ => .error .typeError

/-- Python `v.get(k, dflt)`: a dict method, so any non-dict receiver
raises `AttributeError`. -/
def pyGetD (v : PyVal) (k : String) (dflt : PyVal) : Except PyErr PyVal :=
  match v with
  | .dict kvs => .ok ((lookupStr kvs k).getD dflt)
  | _ => .error .attributeError

/-- Whitespace as stripped by Python `int` before parsing. -/
def isSpaceChar (c : Char) : Bool :=
  c == ' ' || c == '\t' || c == '\n' || c == '\r'

/-- Strip leading and trailing whitespace from a char list. -/
def stripSpaces (cs : List Char) : List Char :=
  ((cs.dropWhile isSpaceChar).reverse.dropWhile isSpaceChar).reverse

/-- Value of a nonempty all-digit char list, `Option.none` otherwise. -/
def decVal (cs : List Char) : Option Nat :=
  if cs.isEmpty then Option.none
  else
    cs.foldl
      (fun acc c =>
        match acc with
        | some n => if c.isDigit then some (n * 10 + (c.toNat - 48)) else Option.none
        | Option.none => Option.none)
      (some 0)

/-- Decimal integer parsing of a stripped string, as Python `int` does it
on string input: optional sign followed by digits. -/
def pyIntOfChars (cs : List Char) : Option Int :=
  match stripSpaces cs with
  | '-' :: rest => (decVal rest).map (fun n => -(n : Int))
  | '+' :: rest => (decVal rest).map (fun n => (n : Int))
  | rest => (decVal rest).map (fun n => (n : Int))

/-- Python `int(v)`: identity on ints, 0/1 on bools, decimal parsing on
strings (`ValueError` when unparsable), `TypeError` otherwise. -/
def pyInt (v : PyVal) : Except PyErr Int :=
  match v with
  | .int n => .ok n
  | .bool b => .ok (if b then 1 else 0)
  | .str s =>
    match pyIntOfChars s.data with
    | some n => .ok n
    | Option.none => .error .valueError
  | _ => .error .typeError

/-- Python iteration `for x in v`: list elements, string characters,
dict keys; `TypeError` otherwise. -/
def pyIterate (v : PyVal) : Except PyErr (List PyVal) :=
  match v with
  | .list xs => .ok xs
  | .str s => .ok (s.toList.map (fun c => .str c.toString))
  | .dict kvs => .ok (kvs.map (fun p => .str p.1))
  | _ => .error .typeError

/-- The empty dict literal `{}`. -/
def emptyDict : PyVal := .dict []

/-- Monadic filter over `Except`, modelling a Python list comprehension
whose predicate may raise. -/
def filterME {α : Type} (p : α → Except PyErr Bool) : List α → Except PyErr (List α)
  | [] => .ok []
  | a :: as => do
    let b ← p a
    let rest ← filterME p as
    return if b then a :: rest else rest

/-! ## DataValidator (`transform.py`)

Each validator returns the pair (boolean result, messages appended to the
`validation` error category).  The `try` bodies are modelled as
`Except`-valued functions (`…Body`); the `except` handlers become the
`match` in the wrapper. -/

/-- `try` body of `DataValidator.validate_api_sports_response`. -/
def sportsRespBody (data : PyVal) (data_type : String) : Except PyErr (Bool × List String) := do
  if !data.truthy then
    return (false, [s!"API-Sports {data_type}: Empty response"])
  let hasResp ← pyContains data "response"
  if !hasResp then
    return (false, [s!"API-Sports {data_type}: Missing response key"])
  let resp ← pySubscriptS data "response"
  if !resp.truthy then
    return (false, [s!"API-Sports {data_type}: Empty response array"])
  return (true, [])

/-- `DataValidator.validate_api_sports_response`: structural check on an
API-Sports payload; `except Exception` converts any raise to `False`. -/
def validate_api_sports_response (data : PyVal) (data_type : String) : Bool × List String :=
  match sportsRespBody data data_type with
  | .ok r => r
  | .error e => (false, [s!"API-Sports {data_type}: {pyErrStr e}"])

/-- `DataValidator.validate_api_football_response`: structural check on an
API-Football payload.  Its `try` body cannot raise (truthiness and an
isinstance test only), so it is modelled directly. -/
def validate_api_football_response (data : PyVal) (data_type : String) : Bool × List String :=
  if !data.truthy then
    (false, [s!"API-Football {data_type}: Empty response"])
  else
    match data with
    | .list _ => (true, [])
    | _ => (false, [s!"API-Football {data_type}: Invalid response type"])

/-- `try` body of `DataValidator.validate_api_sports_schema`. -/
def sportsSchemaBody (teams_data standings_data : PyVal) : Except PyErr (Bool × List String) := do
  let teams ← pySubscriptS teams_data "response"
  if teams.truthy then
    let sample_team ← pySubscriptI teams 0
    let hasTeam ← pyContains sample_team "team"
    let hasVenue ← pyContains sample_team "venue"
    if !hasTeam || !hasVenue then
      return (false, ["API-Sports: Schema change - missing team or venue structure"])
    let tm ← pySubscriptS sample_team "team"
    let hasId ← pyContains tm "id"
    if !hasId then
      return (false, ["API-Sports: Schema change - missing team.id"])
  let resp ← pySubscriptS standings_data "response"
  let resp0 ← pySubscriptI resp 0
  let league ← pySubscriptS resp0 "league"
  let standingsOuter ← pySubscriptS league "standings"
  let standings ← pySubscriptI standingsOuter 0
  if standings.truthy then
    let sample_standing ← pySubscriptI standings 0
    let hasTeam2 ← pyContains sample_standing "team"
    let hasAll ← pyContains sample_standing "all"
    if !hasTeam2 || !hasAll then
      return (false, ["API-Sports: Schema change - missing team or all structure"])
    let allStats ← pySubscriptS sample_standing "all"
    let hasGoals ← pyContains allStats "goals"
    if !hasGoals then
      return (false, ["API-Sports: Schema change - missing goals structure"])
  return (true, [])

/-- The exception kinds named in the first `except` clause of the schema
validators: `(KeyError, IndexError, TypeError)`. -/
def isStructuralErr : PyErr → Bool
  | .keyError _ => true
  | .indexError => true
  | .typeError => true
  | _ => false

/-- `DataValidator.validate_api_sports_schema`: samples the first team and
first standing for the nested structures the transformer depends on. -/
def validate_api_sports_schema (teams_data standings_data : PyVal) : Bool × List String :=
  match sportsSchemaBody teams_data standings_data with
  | .ok r => r
  | .error e =>
    if isStructuralErr e then (false, [s!"API-Sports: Schema changed - {pyErrStr e}"])
    else (false, [s!"API-Sports: Schema validation failed - {pyErrStr e}"])

/-- `try` body of `DataValidator.validate_api_football_schema`. -/
def footSchemaBody (teams_data standings_data : PyVal) : Except PyErr (Bool × List String) := do
  if teams_data.truthy then
    let sample_team ← pySubscriptI teams_data 0
    let hasKey ← pyContains sample_team "team_key"
    if !hasKey then
      return (false, ["API-Football: Schema change - missing team_key"])
    let hasVenue ← pyContains sample_team "venue"
    if !hasVenue then
      return (false, ["API-Football: Schema change - venue structure changed"])
    let venue ← pySubscriptS sample_team "venue"
    match venue with
    | .dict _ => pure ()
    | _ => return (false, ["API-Football: Schema change - venue structure changed"])
  if standings_data.truthy then
    let sample_standing ← pySubscriptI standings_data 0
    let hasId ← pyContains sample_standing "team_id"
    if !hasId then
      return (false, ["API-Football: Schema change - missing team_id"])
    let hasPos ← pyContains sample_standing "overall_league_position"
    let hasPts ← pyContains sample_standing "overall_league_PTS"
    let missing :=
      (if hasPos then [] else ["overall_league_position"]) ++
        (if hasPts then [] else ["overall_league_PTS"])
    if !missing.isEmpty then
      return (false, [s!"API-Football: Schema change - missing {missing}"])
  return (true, [])

/-- `DataValidator.validate_api_football_schema`. -/
def validate_api_football_schema (teams_data standings_data : PyVal) : Bool × List String :=
  match footSchemaBody teams_data standings_data with
  | .ok r => r
  | .error e =>
    if isStructuralErr e then (false, [s!"API-Football: Schema changed - {pyErrStr e}"])
    else (false, [s!"API-Football: Schema validation failed - {pyErrStr e}"])

/-- The mandatory unified fields of `DataValidator.validate_team_record`. -/
def required_fields : List String := ["team_id", "name", "rank", "points"]

/-- The test `field not in team_data or team_data[field] is None` for one
field; raises when `team_data` is not a suitable container. -/
def fieldMissing (team_data : PyVal) (f : String) : Except PyErr Bool := do
  let present ← pyContains team_data f
  if !present then
    return true
  let v ← pySubscriptS team_data f
  return v == PyVal.none

/-- `DataValidator.validate_team_record`: returns
`(is_valid, missing_fields, messages appended to the validation log)`.
There is no exception handler in the source, so a raise propagates. -/
def validate_team_record (team_data : PyVal) (source : String) :
    Except PyErr (Bool × List String × List String) := do
  let missing ← filterME (fieldMissing team_data) required_fields
  if !missing.isEmpty then
    return (false, missing, [s!"{source}: Missing fields {missing}"])
  return (true, [], [])

/-! ## MetricsTracker (`metrics.py`)

The counters of `MetricsTracker.metrics` and the per-run summary row
derivation from `save_to_bigquery`.  The datetime bookkeeping and the
BigQuery client call are external sinks and are not modelled; durations
are abstract time units (`Nat`). -/

/-- The counter fields of `MetricsTracker.metrics`. -/
structure Metrics where
  api_sports_calls : Nat
  api_football_calls : Nat
  api_sports_latency_seconds : Nat
  api_football_latency_seconds : Nat
  api_sports_errors : Nat
  api_football_errors : Nat
  teams_processed_api_sports : Nat
  teams_processed_api_football : Nat
  total_errors : Nat
deriving DecidableEq

/-- The initial metrics dictionary built in `MetricsTracker.__init__`. -/
def Metrics.initState : Metrics :=
  ⟨0, 0, 0, 0, 0, 0, 0, 0, 0⟩

/-- `MetricsTracker.record_api_call`. -/
def record_api_call (m : Metrics) (api_name : String) (duration_seconds : Nat) : Metrics :=
  if api_name = "api_sports" then
    { m with api_sports_calls := m.api_sports_calls + 1,
             api_sports_latency_seconds := m.api_sports_latency_seconds + duration_seconds }
  else if api_name = "api_football" then
    { m with api_football_calls := m.api_football_calls + 1,
             api_football_latency_seconds := m.api_football_latency_seconds + duration_seconds }
  else m

/-- `MetricsTracker.record_error`: bumps the per-source counter for a
known source and the total unconditionally. -/
def record_error (m : Metrics) (api_name : String) : Metrics :=
  let m1 :=
    if api_name = "api_sports" then
      { m with api_sports_errors := m.api_sports_errors + 1 }
    else if api_name = "api_football" then
      { m with api_football_errors := m.api_football_errors + 1 }
    else m
  { m1 with total_errors := m1.total_errors + 1 }

/-- `MetricsTracker.record_teams_processed`. -/
def record_teams_processed (m : Metrics) (api_name : String) (count : Nat) : Metrics :=
  if api_name = "api_sports" then
    { m with teams_processed_api_sports := count }
  else if api_name = "api_football" then
    { m with teams_processed_api_football := count }
  else m

/-- The `pipeline_status` expression of the summary row prepared in
`MetricsTracker.save_to_bigquery`. -/
def pipeline_status (m : Metrics) : String :=
  if m.total_errors = 0 then "success"
  else if m.teams_processed_api_sports > 0 ∨ m.teams_processed_api_football > 0 then "partial"
  else "failed"

/-! ## BaseAPIExtractor (`extract.py`)

`_make_request` is modelled as a function of the outcome of each HTTP
attempt.  The trace records the parsed result, the messages appended to
the per-source error accumulator, the backoff sleeps taken, and the
metrics-tracker calls. -/

/-- Outcome of one `requests.get` attempt, as classified by the
`except` clauses of `_make_request`. -/
inductive AttemptOutcome where
  | success (payload : PyVal)
  | timeout
  | connectionError
  | httpError (status : Nat)
  | unexpected (msg : String)
deriving DecidableEq

/-- The transient (retried) failures: timeout and connection errors. -/
def isTransient : AttemptOutcome → Bool
  | .timeout => true
  | .connectionError => true
  | _ => false

/-- How a `_make_request` call can fail. -/
inductive ReqError where
  | httpError (status : Nat)
  | unexpected (msg : String)
  | retriesExhausted
deriving DecidableEq

instance {ε α : Type} [DecidableEq ε] [DecidableEq α] : DecidableEq (Except ε α) := fun x y =>
  match x, y with
  | .ok a, .ok b =>
    if h : a = b then .isTrue (by rw [h]) else .isFalse (fun hh => h (by cases hh; rfl))
  | .error a, .error b =>
    if h : a = b then .isTrue (by rw [h]) else .isFalse (fun hh => h (by cases hh; rfl))
  | .ok _, .error _ => .isFalse (fun h => Except.noConfusion h)
  | .error _, .ok _ => .isFalse (fun h => Except.noConfusion h)

/-- Observable trace of one `_make_request` call. -/
structure ReqTrace where
  result : Except ReqError PyVal
  errors : List String
  waits : List Nat
  metricErrors : Nat
  metricCalls : Nat
deriving DecidableEq

/-- `max_retries` in `_make_request`. -/
def max_retries : Nat := 3

/-- The error-accumulator message for a transient failure on 1-based
attempt `i` (the f-strings of the timeout/connection handlers). -/
def transientMsg (o : AttemptOutcome) (i : Nat) (url : String) : String :=
  match o with
  | .timeout => s!"Timeout attempt {i}: {url}"
  | .connectionError => s!"Connection error attempt {i}: {url}"
  | _ => ""

/-- The `for attempt in range(max_retries)` loop of `_make_request`.
`attempt` is the 0-based loop index and the second argument the number of
iterations still allowed (`max_retries - attempt`), so after matching it
as `remaining + 1` the source guard `attempt < max_retries - 1` becomes
`remaining > 0`.  The bare `raise` reached after the final transient
failure is `ReqError.retriesExhausted`. -/
def makeRequestLoop (outcomes : Nat → AttemptOutcome) (url : String) :
    (attempt : Nat) → (remaining : Nat) → ReqTrace
  | _, 0 => ⟨.error .retriesExhausted, [], [], 0, 0⟩
  | attempt, remaining + 1 =>
    match outcomes attempt with
    | .success p => ⟨.ok p, [], [], 0, 1⟩
    | .httpError s => ⟨.error (.httpError s), [s!"HTTP {s}: {url}"], [], 1, 0⟩
    | .unexpected m => ⟨.error (.unexpected m), [s!"Unexpected: {m}"], [], 1, 0⟩
    | .timeout =>
      if remaining > 0 then
        let rest := makeRequestLoop outcomes url (attempt + 1) remaining
        ⟨rest.result, transientMsg .timeout (attempt + 1) url :: rest.errors,
          5 * (attempt + 1) :: rest.waits, 1 + rest.metricErrors, rest.metricCalls⟩
      else ⟨.error .retriesExhausted, [transientMsg .timeout (attempt + 1) url], [], 1, 0⟩
    | .connectionError =>
      if remaining > 0 then
        let rest := makeRequestLoop outcomes url (attempt + 1) remaining
        ⟨rest.result, transientMsg .connectionError (attempt + 1) url :: rest.errors,
          5 * (attempt + 1) :: rest.waits, 1 + rest.metricErrors, rest.metricCalls⟩
      else ⟨.error .retriesExhausted, [transientMsg .connectionError (attempt + 1) url], [], 1, 0⟩

/-- `BaseAPIExtractor._make_request` (the retry/backoff skeleton shared by
both extractors' `fetch` methods). -/
def make_request (outcomes : Nat → AttemptOutcome) (url : String) : ReqTrace :=
  makeRequestLoop outcomes url 0 max_retries

/-! ## Transformers (`transform.py`)

Both transformers run the three validator checks, build a standings
lookup dict, process each team entry inside a per-record `try`, and emit
the valid unified records plus an audit-file dump of the same list. -/

/-- Python dict-assignment semantics `d[k] = v` on an association list:
overwrite in place when the key exists, append otherwise. -/
def dictUpd {κ : Type} [DecidableEq κ] (d : List (κ × PyVal)) (k : κ) (v : PyVal) :
    List (κ × PyVal) :=
  if d.any (fun p => p.1 = k) then
    d.map (fun p => if p.1 = k then (k, v) else p)
  else d ++ [(k, v)]

/-- Python `k in d` on an association list. -/
def dictHas {κ : Type} [DecidableEq κ] (d : List (κ × PyVal)) (k : κ) : Bool :=
  d.any (fun p => p.1 = k)

/-- Python `d[k]` on an association list (first match). -/
def dictFind {κ : Type} [DecidableEq κ] (d : List (κ × PyVal)) (k : κ) : Option PyVal :=
  (d.find? (fun p => p.1 = k)).map (fun p => p.2)

/-- How a `transform` call can fail: an explicit `raise ValueError` after
a failed validator check, or an uncaught Python exception. -/
inductive TErr where
  | valueError (msg : String)
  | py (e : PyErr)
deriving DecidableEq

/-- Observable result of one `transform` call: the returned record list
(or the raised error), the messages appended to the `validation` and
`transformation` error categories, the skip counter, and the contents of
the audit JSON file (written only when the loop completes). -/
structure TOut where
  result : Except TErr (List PyVal)
  valMsgs : List String
  transMsgs : List String
  skipped : Nat
  audit : Option (List PyVal)
deriving DecidableEq

/-- `team["team"]["id"]` for one API-Sports standings entry (the key
expression of the standings-lookup dict comprehension). -/
def sportsIdOf (t : PyVal) : Except PyErr PyVal := do
  let tm ← pySubscriptS t "team"
  pySubscriptS tm "id"

/-- Left fold of the API-Sports standings-lookup dict comprehension
`{team["team"]["id"]: team for team in standings}`; any raise escapes. -/
def sportsLookupGo (acc : List (PyVal × PyVal)) :
    List PyVal → Except PyErr (List (PyVal × PyVal))
  | [] => .ok acc
  | t :: ts => do
    let k ← sportsIdOf t
    sportsLookupGo (dictUpd acc k t) ts

/-- The API-Sports standings lookup dict. -/
def sportsLookupBuild (standings : List PyVal) : Except PyErr (List (PyVal × PyVal)) :=
  sportsLookupGo [] standings

/-- The payload accesses of `APISportsTransformer.transform` that run
after validation and before the per-team loop: extract the teams array,
the flattened standings array, and the standings lookup. -/
def sportsExtract (teams_data standings_data : PyVal) :
    Except PyErr (List PyVal × List PyVal × List (PyVal × PyVal)) := do
  let teams ← pySubscriptS teams_data "response"
  let resp ← pySubscriptS standings_data "response"
  let resp0 ← pySubscriptI resp 0
  let league ← pySubscriptS resp0 "league"
  let standingsOuter ← pySubscriptS league "standings"
  let standings ← pySubscriptI standingsOuter 0
  let standingsList ← pyIterate standings
  let lookup ← sportsLookupBuild standingsList
  let teamsList ← pyIterate teams
  return (teamsList, standingsList, lookup)

/-- `try` body of the per-team loop of `APISportsTransformer.transform`:
returns `(emitted record?, validation messages, transformation messages)`. -/
def sportsBodyM (lookup : List (PyVal × PyVal)) (team_entry : PyVal) :
    Except PyErr (Option PyVal × List String × List String) := do
  let team ← pyGetD team_entry "team" emptyDict
  let venue ← pyGetD team_entry "venue" emptyDict
  let team_id ← pyGetD team "id" PyVal.none
  if !team_id.truthy then
    return (Option.none, [], ["API-Sports: Team missing ID"])
  if !dictHas lookup team_id then
    return (Option.none, [], [s!"API-Sports: No standings for team {pyStr team_id}"])
  let standing := (dictFind lookup team_id).getD PyVal.none
  let all_stats ← pyGetD standing "all" emptyDict
  let goals ← pyGetD all_stats "goals" emptyDict
  let nameV ← pyGetD team "name" PyVal.none
  let countryV ← pyGetD team "country" PyVal.none
  let foundedV ← pyGetD team "founded" PyVal.none
  let stadiumV ← pyGetD venue "name" PyVal.none
  let cityV ← pyGetD venue "city" PyVal.none
  let capacityV ← pyGetD venue "capacity" PyVal.none
  let rankV ← pyGetD standing "rank" PyVal.none
  let pointsV ← pyGetD standing "points" PyVal.none
  let goalDiffV ← pyGetD standing "goalsDiff" PyVal.none
  let goalsForV ← pyGetD goals "for" PyVal.none
  let goalsAgainstV ← pyGetD goals "against" PyVal.none
  let winV ← pyGetD all_stats "win" PyVal.none
  let drawV ← pyGetD all_stats "draw" PyVal.none
  let loseV ← pyGetD all_stats "lose" PyVal.none
  let team_record := PyVal.dict [
    ("team_id", team_id), ("name", nameV), ("country", countryV),
    ("founded", foundedV), ("stadium", stadiumV), ("city", cityV),
    ("capacity", capacityV), ("rank", rankV), ("points", pointsV),
    ("goal_diff", goalDiffV), ("goals_for", goalsForV),
    ("goals_against", goalsAgainstV), ("win", winV), ("draw", drawV),
    ("lose", loseV)]
  let res ← validate_team_record team_record "API-Sports"
  if !res.1 then
    return (Option.none, res.2.2, [])
  return (some team_record, res.2.2, [])

/-- One iteration of the API-Sports loop with its `except Exception`
handler; the last component is the skip-counter increment. -/
def sportsBody (lookup : List (PyVal × PyVal)) (team_entry : PyVal) :
    Option PyVal × List String × List String × Nat :=
  match sportsBodyM lookup team_entry with
  | .ok (r, v, t) => (r, v, t, if r.isSome then 0 else 1)
  | .error e => (Option.none, [], [s!"API-Sports: {pyErrStr e}"], 1)

/-- The `for team_entry in teams` loop of `APISportsTransformer.transform`:
accumulated records, validation messages, transformation messages, skips. -/
def sportsLoop (lookup : List (PyVal × PyVal)) :
    List PyVal → List PyVal × List String × List String × Nat
  | [] => ([], [], [], 0)
  | e :: es =>
    let (r, v, t, sk) := sportsBody lookup e
    let (rs, vs, ts, sks) := sportsLoop lookup es
    (r.toList ++ rs, v ++ vs, t ++ ts, sk + sks)

/-- `APISportsTransformer.transform`. -/
def apiSportsTransform (teams_data standings_data : PyVal) : TOut :=
  let c1 := validate_api_sports_response teams_data "teams"
  if !c1.1 then
    ⟨.error (.valueError "Invalid API-Sports teams data structure"), c1.2, [], 0, Option.none⟩
  else
    let c2 := validate_api_sports_response standings_data "standings"
    if !c2.1 then
      ⟨.error (.valueError "Invalid API-Sports standings data structure"),
        c1.2 ++ c2.2, [], 0, Option.none⟩
    else
      let c3 := validate_api_sports_schema teams_data standings_data
      if !c3.1 then
        ⟨.error (.valueError "API-Sports schema validation failed - possible API change"),
          c1.2 ++ c2.2 ++ c3.2, [], 0, Option.none⟩
      else
        match sportsExtract teams_data standings_data with
        | .error e =>
          ⟨.error (.py e), c1.2 ++ c2.2 ++ c3.2, [], 0, Option.none⟩
        | .ok (teamsList, _, lookup) =>
          let out := sportsLoop lookup teamsList
          ⟨.ok out.1, c1.2 ++ c2.2 ++ c3.2 ++ out.2.1, out.2.2.1, out.2.2.2, some out.1⟩

/-- One iteration of the API-Football standings-lookup loop:
`int(team.get("team_id", 0))` with `except (ValueError, TypeError)`
continuing; any other raise (such as `AttributeError` from `.get` on a
non-dict entry) escapes. -/
def footLookupStep (acc : List (Int × PyVal)) (team : PyVal) :
    Except PyErr (List (Int × PyVal)) := do
  let raw ← pyGetD team "team_id" (PyVal.int 0)
  match pyInt raw with
  | .ok team_id => return dictUpd acc team_id team
  | .error .valueError => return acc
  | .error .typeError => return acc
  | .error e => .error e

/-- Left fold of the API-Football standings-lookup loop. -/
def footLookupGo (acc : List (Int × PyVal)) :
    List PyVal → Except PyErr (List (Int × PyVal))
  | [] => .ok acc
  | t :: ts => do
    let acc2 ← footLookupStep acc t
    footLookupGo acc2 ts

/-- The API-Football standings lookup dict. -/
def footLookupBuild (standings : List PyVal) : Except PyErr (List (Int × PyVal)) :=
  footLookupGo [] standings

/-- The inner `try` of the API-Football loop computing
`goals_for`, `goals_against`, `goal_diff`. -/
def footGoals (standing : PyVal) : Except PyErr (Int × Int × Int) := do
  let gfRaw ← pyGetD standing "overall_league_GF" (PyVal.int 0)
  let goals_for ← pyInt gfRaw
  let gaRaw ← pyGetD standing "overall_league_GA" (PyVal.int 0)
  let goals_against ← pyInt gaRaw
  return (goals_for, goals_against, goals_for - goals_against)

/-- The inner `try/except (ValueError, TypeError)` of the API-Football
loop: coercion failures fall back to all-zero goals, anything else
propagates. -/
def footGoalsCaught (standing : PyVal) : Except PyErr (Int × Int × Int) :=
  match footGoals standing with
  | .ok g => .ok g
  | .error .valueError => .ok (0, 0, 0)
  | .error .typeError => .ok (0, 0, 0)
  | .error e => .error e

/-- The conditional expression
`venue.get(key) if venue else None` of the API-Football loop. -/
def venueGet (venue : PyVal) (k : String) : Except PyErr PyVal :=
  if venue.truthy then pyGetD venue k PyVal.none else pure PyVal.none

/-- `try` body of the per-team loop of `APIFootballTransformer.transform`. -/
def footBodyM (lookup : List (Int × PyVal)) (team_entry : PyVal) :
    Except PyErr (Option PyVal × List String × List String) := do
  let team_key ← pyGetD team_entry "team_key" PyVal.none
  if !team_key.truthy then
    return (Option.none, [], ["API-Football: Team missing team_key"])
  let team_id ← pyInt team_key
  if !dictHas lookup team_id then
    return (Option.none, [], [s!"API-Football: No standings for team {team_id}"])
  let standing := (dictFind lookup team_id).getD PyVal.none
  let goalsRes ← footGoalsCaught standing
  let venue ← pyGetD team_entry "venue" emptyDict
  let nameV ← pyGetD team_entry "team_name" PyVal.none
  let countryV ← pyGetD team_entry "team_country" PyVal.none
  let foundedV ← pyGetD team_entry "team_founded" PyVal.none
  let stadiumV ← venueGet venue "venue_name"
  let cityV ← venueGet venue "venue_city"
  let capacityV ← venueGet venue "venue_capacity"
  let rankRaw ← pyGetD standing "overall_league_position" (PyVal.int 0)
  let rank ← pyInt rankRaw
  let ptsRaw ← pyGetD standing "overall_league_PTS" (PyVal.int 0)
  let points ← pyInt ptsRaw
  let winRaw ← pyGetD standing "overall_league_W" (PyVal.int 0)
  let win ← pyInt winRaw
  let drawRaw ← pyGetD standing "overall_league_D" (PyVal.int 0)
  let draw ← pyInt drawRaw
  let loseRaw ← pyGetD standing "overall_league_L" (PyVal.int 0)
  let lose ← pyInt loseRaw
  let team_record := PyVal.dict [
    ("team_id", .int team_id), ("name", nameV), ("country", countryV),
    ("founded", foundedV), ("stadium", stadiumV), ("city", cityV),
    ("capacity", capacityV), ("rank", .int rank), ("points", .int points),
    ("goal_diff", .int goalsRes.2.2), ("goals_for", .int goalsRes.1),
    ("goals_against", .int goalsRes.2.1), ("win", .int win),
    ("draw", .int draw), ("lose", .int lose)]
  let res ← validate_team_record team_record "API-Football"
  if !res.1 then
    return (Option.none, res.2.2, [])
  return (some team_record, res.2.2, [])

/-- One iteration of the API-Football loop with its `except Exception`
handler. -/
def footBody (lookup : List (Int × PyVal)) (team_entry : PyVal) :
    Option PyVal × List String × List String × Nat :=
  match footBodyM lookup team_entry with
  | .ok (r, v, t) => (r, v, t, if r.isSome then 0 else 1)
  | .error e => (Option.none, [], [s!"API-Football: {pyErrStr e}"], 1)

/-- The `for team_entry in teams_data` loop of
`APIFootballTransformer.transform`. -/
def footLoop (lookup : List (Int × PyVal)) :
    List PyVal → List PyVal × List String × List String × Nat
  | [] => ([], [], [], 0)
  | e :: es =>
    let (r, v, t, sk) := footBody lookup e
    let (rs, vs, ts, sks) := footLoop lookup es
    (r.toList ++ rs, v ++ vs, t ++ ts, sk + sks)

/-- The elements of a validated API-Football payload (the structural
check guarantees a list, so other shapes cannot reach the loops). -/
def pyListElems : PyVal → List PyVal
  | .list xs => xs
  | _ => []

/-- `APIFootballTransformer.transform`. -/
def apiFootballTransform (teams_data standings_data : PyVal) : TOut :=
  let c1 := validate_api_football_response teams_data "teams"
  if !c1.1 then
    ⟨.error (.valueError "Invalid API-Football teams data structure"), c1.2, [], 0, Option.none⟩
  else
    let c2 := validate_api_football_response standings_data "standings"
    if !c2.1 then
      ⟨.error (.valueError "Invalid API-Football standings data structure"),
        c1.2 ++ c2.2, [], 0, Option.none⟩
    else
      let c3 := validate_api_football_schema teams_data standings_data
      if !c3.1 then
        ⟨.error (.valueError "API-Football schema validation failed - possible API change"),
          c1.2 ++ c2.2 ++ c3.2, [], 0, Option.none⟩
      else
        match footLookupBuild (pyListElems standings_data) with
        | .error e =>
          ⟨.error (.py e), c1.2 ++ c2.2 ++ c3.2, [], 0, Option.none⟩
        | .ok lookup =>
          let out := footLoop lookup (pyListElems teams_data)
          ⟨.ok out.1, c1.2 ++ c2.2 ++ c3.2 ++ out.2.1, out.2.2.1, out.2.2.2, some out.1⟩

/-! ## Theorems: the extractor retry policy (C4, C6, C7) -/

theorem transient_cases {o : AttemptOutcome} (h : isTransient o = true) :
    o = .timeout ∨ o = .connectionError := by
  cases o <;> simp_all [isTransient]

/-- C4: for every sequence of 3 consecutive transient failures (timeouts
or connection failures) of the same request, fetch surfaces the error
after the 3rd attempt (raises, does not suppress), three errors are
appended to the accumulator (each carrying its attempt index), and
backoff waits of exactly 5 and 10 time units are taken between attempts
1 and 2 and between attempts 2 and 3, with none after the 3rd attempt. -/
theorem C4_three_transient_failures (outcomes : Nat → AttemptOutcome) (url : String)
    (h0 : isTransient (outcomes 0) = true) (h1 : isTransient (outcomes 1) = true)
    (h2 : isTransient (outcomes 2) = true) :
    (make_request outcomes url).result = .error .retriesExhausted ∧
    (make_request outcomes url).errors =
      [transientMsg (outcomes 0) 1 url, transientMsg (outcomes 1) 2 url,
        transientMsg (outcomes 2) 3 url] ∧
    (make_request outcomes url).waits = [5, 10] := by
  rcases transient_cases h0 with e0 | e0 <;> rcases transient_cases h1 with e1 | e1 <;>
    rcases transient_cases h2 with e2 | e2 <;>
      simp [make_request, makeRequestLoop, max_retries, e0, e1, e2, transientMsg]

theorem C4_witness :
    (make_request (fun _ => .timeout) "u").result = .error .retriesExhausted ∧
    (make_request (fun _ => .timeout) "u").waits = [5, 10] :=
  ⟨(C4_three_transient_failures (fun _ => .timeout) "u" rfl rfl rfl).1,
    (C4_three_transient_failures (fun _ => .timeout) "u" rfl rfl rfl).2.2⟩

/-- C6: for every sequence of at most 2 transient failures followed by a
successful response, fetch returns the successful parsed payload, and the
error accumulator's entry for that source contains exactly as many new
messages as there were failed attempts, each carrying its attempt index. -/
theorem C6_transient_then_success (outcomes : Nat → AttemptOutcome) (url : String)
    (k : Nat) (p : PyVal) (hk : k ≤ 2)
    (hfail : ∀ i, i < k → isTransient (outcomes i) = true)
    (hsucc : outcomes k = .success p) :
    (make_request outcomes url).result = .ok p ∧
    (make_request outcomes url).errors =
      (List.range k).map (fun i => transientMsg (outcomes i) (i + 1) url) ∧
    (make_request outcomes url).errors.length = k := by
  interval_cases k
  · simp [make_request, makeRequestLoop, max_retries, hsucc]
  · have e0 := transient_cases (hfail 0 (by omega))
    rcases e0 with e0 | e0 <;>
      simp [make_request, makeRequestLoop, max_retries, e0, hsucc, List.range_succ]
  · have e0 := transient_cases (hfail 0 (by omega))
    have e1 := transient_cases (hfail 1 (by omega))
    rcases e0 with e0 | e0 <;> rcases e1 with e1 | e1 <;>
      simp [make_request, makeRequestLoop, max_retries, e0, e1, hsucc, List.range_succ]

theorem C6_witness :
    (make_request (fun i => if i = 0 then .timeout else .success (.int 1)) "u").result =
      .ok (.int 1) ∧
    (make_request (fun i => if i = 0 then .timeout else .success (.int 1)) "u").errors.length
      = 1 :=
  ⟨(C6_transient_then_success (fun i => if i = 0 then .timeout else .success (.int 1)) "u"
      1 (.int 1) (by omega) (fun i hi => by interval_cases i; rfl) rfl).1,
    (C6_transient_then_success (fun i => if i = 0 then .timeout else .success (.int 1)) "u"
      1 (.int 1) (by omega) (fun i hi => by interval_cases i; rfl) rfl).2.2⟩

/-- C7: for every request whose first attempt fails with an HTTP
status-level error, fetch raises immediately without performing any retry
or backoff wait, and exactly one error message is recorded. -/
theorem C7_http_error_no_retry (outcomes : Nat → AttemptOutcome) (url : String)
    (status : Nat) (h : outcomes 0 = .httpError status) :
    (make_request outcomes url).result = .error (.httpError status) ∧
    (make_request outcomes url).errors = [s!"HTTP {status}: {url}"] ∧
    (make_request outcomes url).waits = [] := by
  simp [make_request, makeRequestLoop, max_retries, h]

theorem C7_witness :
    (make_request (fun _ => .httpError 404) "u").result = .error (.httpError 404) ∧
    (make_request (fun _ => .httpError 404) "u").errors = [s!"HTTP {(404 : Nat)}: u"] ∧
    (make_request (fun _ => .httpError 404) "u").waits = [] :=
  C7_http_error_no_retry (fun _ => .httpError 404) "u" 404 rfl

/-! ## Theorems: the metrics summary status (C2) -/

/-- Metrics state of a run in which both sources completed successfully
(every fetch eventually succeeded and both transforms processed 20
teams), but one transient failure was retried along the way. -/
def bothSucceededMetrics : Metrics :=
  let m1 := record_error Metrics.initState "api_sports"
  let m2 := record_api_call m1 "api_sports" 1
  let m3 := record_api_call m2 "api_sports" 1
  let m4 := record_api_call m3 "api_football" 1
  let m5 := record_api_call m4 "api_football" 1
  let m6 := record_teams_processed m5 "api_sports" 20
  record_teams_processed m6 "api_football" 20

/-- C2 counterexample: a run in which both sources succeeded (both
teams-processed counters positive, every call eventually successful) is
written with status `partial`, not `success`, because one retried
transient error made `total_errors` nonzero. -/
theorem C2_counterexample :
    0 < bothSucceededMetrics.teams_processed_api_sports ∧
    0 < bothSucceededMetrics.teams_processed_api_football ∧
    pipeline_status bothSucceededMetrics = "partial" ∧
    pipeline_status bothSucceededMetrics ≠ "success" := by
  decide

/-- C2 (amended): the derived status in the metrics summary row is
`success` exactly when the tracker recorded zero errors, `partial`
exactly when it recorded at least one error and at least one source has
a positive teams-processed count, and `failed` exactly when it recorded
at least one error and both teams-processed counts are zero — the status
is derived from the error counters, not from per-source success. -/
theorem C2_status_from_error_counters (m : Metrics) :
    (pipeline_status m = "success" ↔ m.total_errors = 0) ∧
    (pipeline_status m = "partial" ↔
      m.total_errors ≠ 0 ∧
        (0 < m.teams_processed_api_sports ∨ 0 < m.teams_processed_api_football)) ∧
    (pipeline_status m = "failed" ↔
      m.total_errors ≠ 0 ∧ m.teams_processed_api_sports = 0 ∧
        m.teams_processed_api_football = 0) := by
  have hps : ("partial" : String) ≠ "success" := by decide
  have hfs : ("failed" : String) ≠ "success" := by decide
  have hsp : ("success" : String) ≠ "partial" := by decide
  have hfp : ("failed" : String) ≠ "partial" := by decide
  have hsf : ("success" : String) ≠ "failed" := by decide
  have hpf : ("partial" : String) ≠ "failed" := by decide
  unfold pipeline_status
  split_ifs with h1 h2
  · simp only [h1]
    refine ⟨by simp, ⟨fun h => absurd h hsp, fun h => absurd rfl h.1⟩,
      ⟨fun h => absurd h hsf, fun h => absurd rfl h.1⟩⟩
  · refine ⟨⟨fun h => absurd h hps, fun h => absurd h h1⟩, ⟨fun _ => ⟨h1, by omega⟩, fun _ => rfl⟩,
      ⟨fun h => absurd h hpf, fun h => by omega⟩⟩
  · refine ⟨⟨fun h => absurd h hfs, fun h => absurd h h1⟩,
      ⟨fun h => absurd h hfp, fun h => by omega⟩, ⟨fun _ => ⟨h1, by omega⟩, fun _ => rfl⟩⟩

/-! ## Theorems: the record-level validator (C1, C5) -/

theorem any_eq_find?_isSome {α : Type} (l : List α) (p : α → Bool) :
    l.any p = (l.find? p).isSome := by
  induction l with
  | nil => rfl
  | cons a t ih => cases h : p a <;> simp [h, ih, List.find?_cons]

theorem exceptBind_ok {ε α β : Type} (a : α) (f : α → Except ε β) :
    (Except.ok a >>= f) = f a := rfl

theorem exceptBind_err {ε α β : Type} (e : ε) (f : α → Except ε β) :
    ((Except.error e : Except ε α) >>= f) = Except.error e := rfl

/-- Evaluation of the per-field test of `validate_team_record` on a dict:
a field is missing when its key is absent or bound to `None`. -/
theorem fieldMissing_dict (kvs : List (String × PyVal)) (f : String) :
    fieldMissing (PyVal.dict kvs) f =
      .ok (match lookupStr kvs f with
        | Option.none => true
        | some v => v == PyVal.none) := by
  have hany := any_eq_find?_isSome kvs (fun p => p.1 == f)
  cases hf : kvs.find? (fun p => p.1 == f) with
  | none =>
    rw [hf] at hany
    simp only [fieldMissing, pyContains, lookupStr, hany, hf, Option.isSome_none,
      Option.map_none']
    rfl
  | some pr =>
    rw [hf] at hany
    simp only [fieldMissing, pyContains, pySubscriptS, lookupStr, hany, hf,
      Option.isSome_some, Option.map_some']
    rfl

theorem filterME_of_pure {α : Type} (p : α → Except PyErr Bool) (q : α → Bool)
    (h : ∀ a, p a = .ok (q a)) : ∀ l : List α, filterME p l = .ok (l.filter q) := by
  intro l
  induction l with
  | nil => rfl
  | cons a t ih =>
    cases hq : q a <;>
      simp only [filterME, h a, hq, ih, List.filter_cons, exceptBind_ok, if_true, if_false] <;>
        rfl

/-- The list of mandatory fields that are absent from a record dict or
bound to `None` in it. -/
def requiredMissing (kvs : List (String × PyVal)) : List String :=
  required_fields.filter fun f =>
    match lookupStr kvs f with
    | Option.none => true
    | some v => v == PyVal.none

/-- Closed form of `validate_team_record` on a dict record. -/
theorem validate_team_record_dict (kvs : List (String × PyVal)) (source : String) :
    validate_team_record (PyVal.dict kvs) source =
      (if requiredMissing kvs = [] then .ok (true, [], [])
       else .ok (false, requiredMissing kvs,
          [s!"{source}: Missing fields {requiredMissing kvs}"])) := by
  unfold validate_team_record
  rw [filterME_of_pure (fieldMissing (PyVal.dict kvs))
    (fun f => match lookupStr kvs f with
      | Option.none => true
      | some v => v == PyVal.none)
    (fieldMissing_dict kvs) required_fields]
  simp only [exceptBind_ok]
  rw [show List.filter
      (fun f => match lookupStr kvs f with
        | Option.none => true
        | some v => v == PyVal.none) required_fields = requiredMissing kvs from rfl]
  by_cases h : requiredMissing kvs = []
  · rw [if_pos h, h]
    rfl
  · rw [if_neg h]
    have hE : (requiredMissing kvs).isEmpty = false := by
      cases hr : requiredMissing kvs
      · exact absurd hr h
      · rfl
    rw [hE]
    rfl

/-- C1 counterexample: a record in which all four mandatory fields are
present and non-null but `points` is the falsy value `0` passes the
check with `(True, [])` — falsy-but-not-`None` values are accepted,
refuting the claim's "missing or falsy" condition. -/
theorem C1_counterexample :
    validate_team_record
      (PyVal.dict [("team_id", PyVal.int 1), ("name", PyVal.str "Arsenal"),
        ("rank", PyVal.int 2), ("points", PyVal.int 0)]) "API-Sports" =
      .ok (true, [], []) ∧
    PyVal.truthy (PyVal.int 0) = false := by
  decide

/-- C1 (amended): for every team record dict, `validate_team_record`
fails — returning false together with the list of missing fields and
appending one validation message — exactly when one of the four
mandatory unified fields `team_id`, `name`, `rank`, `points` is absent
or bound to `None` (not: falsy), and succeeds with `(True, [])` and no
message otherwise. -/
theorem C1_missing_or_none (kvs : List (String × PyVal)) (source : String) :
    validate_team_record (PyVal.dict kvs) source =
      (if requiredMissing kvs = [] then .ok (true, [], [])
       else .ok (false, requiredMissing kvs,
          [s!"{source}: Missing fields {requiredMissing kvs}"])) ∧
    (requiredMissing kvs = [] ↔
      ∀ f ∈ required_fields, ∃ v, lookupStr kvs f = some v ∧ v ≠ PyVal.none) := by
  refine ⟨validate_team_record_dict kvs source, ?_⟩
  unfold requiredMissing
  rw [List.filter_eq_nil_iff]
  constructor
  · intro h f hf
    have := h f hf
    cases hl : lookupStr kvs f with
    | none => rw [hl] at this; simp at this
    | some v =>
      rw [hl] at this
      refine ⟨v, rfl, ?_⟩
      simpa using this
  · intro h f hf
    obtain ⟨v, hv, hne⟩ := h f hf
    rw [hv]
    simpa using hne

/-- The missing-field list of a record that only carries `team_id`. -/
def c1missing : List String := ["name", "rank", "points"]

theorem C1_witness :
    validate_team_record (PyVal.dict [("team_id", PyVal.int 3)]) "API-Sports" =
      .ok (false, c1missing, [s!"API-Sports: Missing fields {c1missing}"]) := by
  have h := (C1_missing_or_none [("team_id", PyVal.int 3)] "API-Sports").1
  rw [h]
  decide

/-- C5 counterexample: the record-level check has no exception handler;
on the non-dict input `None` the membership test
`"team_id" not in team_data` raises `TypeError`, which escapes. -/
theorem C5_counterexample :
    validate_team_record PyVal.none "API-Sports" = .error .typeError := by
  decide

/-- C5 (amended): the structural and schema checks are fail-closed — any
exception raised during inspection of an arbitrarily-shaped payload is
caught and converted to a false result with one validation message — but
the record-level check is total only on dict records; it has no handler
and lets a raise escape on non-dict input. -/
theorem C5_fail_closed (d t s : PyVal) (dt : String) (kvs : List (String × PyVal))
    (e : PyErr) :
    (sportsRespBody d dt = .error e →
      validate_api_sports_response d dt = (false, [s!"API-Sports {dt}: {pyErrStr e}"])) ∧
    (sportsSchemaBody t s = .error e →
      (validate_api_sports_schema t s).1 = false ∧
        (validate_api_sports_schema t s).2.length = 1) ∧
    (footSchemaBody t s = .error e →
      (validate_api_football_schema t s).1 = false ∧
        (validate_api_football_schema t s).2.length = 1) ∧
    (∃ r, validate_team_record (PyVal.dict kvs) dt = .ok r) := by
  refine ⟨?_, ?_, ?_, ?_⟩
  · intro h
    simp [validate_api_sports_response, h]
  · intro h
    unfold validate_api_sports_schema
    rw [h]
    by_cases he : isStructuralErr e = true <;> simp [he]
  · intro h
    unfold validate_api_football_schema
    rw [h]
    by_cases he : isStructuralErr e = true <;> simp [he]
  · rw [validate_team_record_dict kvs dt]
    split_ifs <;> exact ⟨_, rfl⟩

theorem C5_witness :
    validate_api_sports_response (PyVal.int 5) "teams" =
      (false, [s!"API-Sports teams: {pyErrStr .typeError}"]) ∧
    (validate_api_sports_schema (PyVal.int 0) (PyVal.int 1)).1 = false ∧
    (validate_api_football_schema (PyVal.int 0) (PyVal.int 1)).1 = false ∧
    ∃ r, validate_team_record (PyVal.dict []) "teams" = .ok r := by
  have h := C5_fail_closed (PyVal.int 5) (PyVal.int 0) (PyVal.int 1) "teams" [] PyErr.typeError
  exact ⟨h.1 (by decide), (h.2.1 (by decide)).1, (h.2.2.1 (by decide)).1, h.2.2.2⟩

/-! ## Theorems: the API-Football standings-lookup construction (C3) -/

theorem pyInt_error_cases {v : PyVal} {e : PyErr} (h : pyInt v = .error e) :
    e = .valueError ∨ e = .typeError := by
  cases v <;> simp_all [pyInt]
  rename_i s
  cases hs : pyIntOfChars s.data <;> rw [hs] at h <;> simp_all

/-- Key membership after a Python dict assignment. -/
theorem dictHas_upd {κ : Type} [DecidableEq κ] (d : List (κ × PyVal)) (k j : κ) (v : PyVal) :
    dictHas (dictUpd d k v) j = true ↔ j = k ∨ dictHas d j = true := by
  unfold dictHas dictUpd
  by_cases h : d.any (fun p => p.1 = k)
  · rw [if_pos h]
    simp only [List.any_eq_true, decide_eq_true_eq] at h ⊢
    constructor
    · rintro ⟨p, hp, hj⟩
      obtain ⟨q, hq, rfl⟩ := List.mem_map.1 hp
      by_cases hqk : q.1 = k
      · rw [if_pos (by simpa using hqk)] at hj
        exact Or.inl hj.symm
      · rw [if_neg (by simpa using hqk)] at hj
        exact Or.inr ⟨q, hq, hj⟩
    · rintro (rfl | ⟨p, hp, hj⟩)
      · obtain ⟨p, hp, hpk⟩ := h
        exact ⟨(j, v), List.mem_map.2 ⟨p, hp, by rw [if_pos (by simpa using hpk)]⟩, rfl⟩
      · by_cases hpk : p.1 = k
        · exact ⟨(k, v), List.mem_map.2 ⟨p, hp, by rw [if_pos (by simpa using hpk)]⟩,
            by rw [← hj, hpk]⟩
        · exact ⟨p, List.mem_map.2 ⟨p, hp, by rw [if_neg (by simpa using hpk)]⟩, hj⟩
  · rw [if_neg h]
    simp only [List.any_append, List.any_eq_true, decide_eq_true_eq, Bool.or_eq_true,
      List.mem_singleton]
    constructor
    · rintro (⟨p, hp, hj⟩ | ⟨p, rfl, hj⟩)
      · exact Or.inr ⟨p, hp, hj⟩
      · exact Or.inl hj.symm
    · rintro (rfl | ⟨p, hp, hj⟩)
      · exact Or.inr ⟨(j, v), rfl, rfl⟩
      · exact Or.inl ⟨p, hp, hj⟩

/-- The coerced identifier of one standings entry as the lookup loop sees
it: `int(team.get("team_id", 0))`, `Option.none` when the coercion
raises (the skipped case). -/
def footRawId (kvs : List (String × PyVal)) : Option Int :=
  match pyInt ((lookupStr kvs "team_id").getD (PyVal.int 0)) with
  | .ok n => some n
  | .error _ => Option.none

theorem footLookupStep_dict (acc : List (Int × PyVal)) (kvs : List (String × PyVal)) :
    footLookupStep acc (PyVal.dict kvs) =
      .ok (match footRawId kvs with
        | some n => dictUpd acc n (PyVal.dict kvs)
        | Option.none => acc) := by
  unfold footLookupStep footRawId
  rw [show pyGetD (PyVal.dict kvs) "team_id" (PyVal.int 0) =
    .ok ((lookupStr kvs "team_id").getD (PyVal.int 0)) from rfl, exceptBind_ok]
  cases h : pyInt ((lookupStr kvs "team_id").getD (PyVal.int 0)) with
  | ok n => rfl
  | error e => rcases pyInt_error_cases h with rfl | rfl <;> rfl

theorem footLookupGo_spec (entries : List (List (String × PyVal)))
    (acc : List (Int × PyVal)) :
    ∃ L, footLookupGo acc (entries.map PyVal.dict) = .ok L ∧
      ∀ id : Int, dictHas L id = true ↔
        (dictHas acc id = true ∨ ∃ kvs ∈ entries, footRawId kvs = some id) := by
  induction entries generalizing acc with
  | nil => exact ⟨acc, rfl, fun id => by simp⟩
  | cons kvs rest ih =>
    rw [List.map_cons]
    show ∃ L, (do
      let acc2 ← footLookupStep acc (PyVal.dict kvs)
      footLookupGo acc2 (rest.map PyVal.dict)) = .ok L ∧ _
    rw [footLookupStep_dict, exceptBind_ok]
    cases hid : footRawId kvs with
    | none =>
      obtain ⟨L, hL, hiff⟩ := ih acc
      refine ⟨L, hL, fun id => ?_⟩
      rw [hiff id]
      constructor
      · rintro (h | ⟨kvs2, hm, h⟩)
        · exact Or.inl h
        · exact Or.inr ⟨kvs2, List.mem_cons_of_mem _ hm, h⟩
      · rintro (h | ⟨kvs2, hm, h⟩)
        · exact Or.inl h
        · rcases List.mem_cons.1 hm with rfl | hm2
          · rw [hid] at h
            cases h
          · exact Or.inr ⟨kvs2, hm2, h⟩
    | some n =>
      obtain ⟨L, hL, hiff⟩ := ih (dictUpd acc n (PyVal.dict kvs))
      refine ⟨L, hL, fun id => ?_⟩
      rw [hiff id, dictHas_upd]
      constructor
      · rintro ((rfl | h) | ⟨kvs2, hm, h⟩)
        · exact Or.inr ⟨kvs, List.mem_cons_self _ _, hid⟩
        · exact Or.inl h
        · exact Or.inr ⟨kvs2, List.mem_cons_of_mem _ hm, h⟩
      · rintro (h | ⟨kvs2, hm, h⟩)
        · exact Or.inl (Or.inr h)
        · rcases List.mem_cons.1 hm with rfl | hm2
          · rw [hid] at h
            cases h
            exact Or.inl (Or.inl rfl)
          · exact Or.inr ⟨kvs2, hm2, h⟩

/-- C3 counterexample: a standings entry with the `team_id` key entirely
absent is not skipped — `.get("team_id", 0)` defaults to `0`, so the
entry is mapped under key `0` in the lookup. -/
theorem C3_counterexample :
    footLookupBuild [PyVal.dict [("overall_league_PTS", PyVal.int 3)]] =
      .ok [((0 : Int), PyVal.dict [("overall_league_PTS", PyVal.int 3)])] ∧
    dictHas [((0 : Int), PyVal.dict [("overall_league_PTS", PyVal.int 3)])] (0 : Int) =
      true := by
  decide

/-- C3 (amended): during standings-lookup construction in the source-B
transform, an entry whose identifier is present but non-numeric is
skipped (contributes no key); an entry whose identifier is absent is
coerced from the default `0` and mapped under key `0`; and an entry with
a numeric (or numeric-string) identifier is mapped under that value: a
key is in the lookup exactly when some entry's coerced identifier equals
it. -/
theorem C3_lookup_keys (entries : List (List (String × PyVal))) (id : Int) :
    ∃ L, footLookupBuild (entries.map PyVal.dict) = .ok L ∧
      (dictHas L id = true ↔ ∃ kvs ∈ entries, footRawId kvs = some id) := by
  obtain ⟨L, hL, hiff⟩ := footLookupGo_spec entries []
  refine ⟨L, hL, ?_⟩
  rw [hiff id]
  simp [dictHas]

theorem C3_witness :
    ∃ L, footLookupBuild ([[("team_id", PyVal.str "7")], [("team_id", PyVal.none)]].map
      PyVal.dict) = .ok L ∧ dictHas L (7 : Int) = true := by
  obtain ⟨L, hL, hiff⟩ :=
    C3_lookup_keys [[("team_id", PyVal.str "7")], [("team_id", PyVal.none)]] 7
  exact ⟨L, hL, hiff.2 ⟨[("team_id", PyVal.str "7")], by simp, by decide⟩⟩

/-! ## Theorems: transform aborts on failed validation (C8) -/

/-- C8: for every pair of raw API-Sports inputs on which any of the
structural or schema validation checks returns false, `transform` raises
a validation error and produces no output records at all: no partial
output, no records accumulated, no audit file written. -/
theorem C8_abort_on_failed_validation (teams standings : PyVal)
    (h : (validate_api_sports_response teams "teams").1 = false ∨
         (validate_api_sports_response standings "standings").1 = false ∨
         (validate_api_sports_schema teams standings).1 = false) :
    (∃ msg, (apiSportsTransform teams standings).result = .error (.valueError msg)) ∧
    (apiSportsTransform teams standings).audit = Option.none := by
  unfold apiSportsTransform
  rcases h with h | h | h
  · simp [h]
  · by_cases h1 : (validate_api_sports_response teams "teams").1 <;> simp [h1, h]
  · by_cases h1 : (validate_api_sports_response teams "teams").1 <;>
      by_cases h2 : (validate_api_sports_response standings "standings").1 <;>
        simp [h1, h2, h]

/-- A well-formed API-Sports teams payload with one team entry. -/
def c8teams : PyVal :=
  .dict [("response", .list [
    .dict [("team", .dict [("id", .int 1), ("name", .str "A")]), ("venue", .dict [])]])]

/-- An API-Sports standings payload whose sample (first) standing entry
lacks the nested aggregated-stats sub-object `all`. -/
def c8standings : PyVal :=
  .dict [("response", .list [
    .dict [("league", .dict [("standings", .list [.list [
      .dict [("team", .dict [("id", .int 1)]), ("rank", .int 1), ("points", .int 10)]]])])]])]

theorem C8_witness :
    (∃ msg, (apiSportsTransform c8teams c8standings).result = .error (.valueError msg)) ∧
    (apiSportsTransform c8teams c8standings).audit = Option.none :=
  C8_abort_on_failed_validation c8teams c8standings (Or.inr (Or.inr (by decide)))

/-! ## Helper lemmas for the per-record claims (C9, C10) -/

/-- Field access on an emitted unified record (a dict). -/
def recField (r : PyVal) (f : String) : Option PyVal :=
  match r with
  | .dict kvs => lookupStr kvs f
  | _ => Option.none

theorem dictHas_dictFind {κ : Type} [DecidableEq κ] {d : List (κ × PyVal)} {k : κ}
    (h : dictHas d k = true) : ∃ v, dictFind d k = some v := by
  unfold dictHas at h
  rw [any_eq_find?_isSome] at h
  unfold dictFind
  cases hf : d.find? (fun p => p.1 = k) with
  | none => rw [hf] at h; simp at h
  | some pr => exact ⟨pr.2, rfl⟩

theorem dictFind_mem {κ : Type} [DecidableEq κ] {d : List (κ × PyVal)} {k : κ} {v : PyVal}
    (h : dictFind d k = some v) : (k, v) ∈ d := by
  unfold dictFind at h
  obtain ⟨pr, hf, hv⟩ := Option.map_eq_some'.1 h
  have hm := List.mem_of_find?_eq_some hf
  have hk := List.find?_some hf
  simp only [decide_eq_true_eq] at hk
  obtain ⟨a, b⟩ := pr
  simp only at hk hv
  subst hk
  subst hv
  exact hm

theorem dictUpd_mem {κ : Type} [DecidableEq κ] {d : List (κ × PyVal)} {k : κ} {v : PyVal}
    {p : κ × PyVal} (hp : p ∈ dictUpd d k v) : p = (k, v) ∨ p ∈ d := by
  unfold dictUpd at hp
  split at hp
  · obtain ⟨q, hq, hfq⟩ := List.mem_map.1 hp
    by_cases hqk : q.1 = k
    · rw [if_pos hqk] at hfq
      exact Or.inl hfq.symm
    · rw [if_neg hqk] at hfq
      exact Or.inr (hfq ▸ hq)
  · rcases List.mem_append.1 hp with h | h
    · exact Or.inr h
    · exact Or.inl (List.mem_singleton.1 h)

/-- Every pair in the API-Sports standings lookup comes from a standings
entry, keyed by that entry's `team.id`. -/
theorem sportsLookupGo_mem (xs : List PyVal) :
    ∀ acc L, sportsLookupGo acc xs = .ok L →
      ∀ p ∈ L, p ∈ acc ∨ (p.2 ∈ xs ∧ sportsIdOf p.2 = .ok p.1) := by
  induction xs with
  | nil =>
    intro acc L h p hp
    simp only [sportsLookupGo, Except.ok.injEq] at h
    exact Or.inl (h ▸ hp)
  | cons t ts ih =>
    intro acc L h p hp
    unfold sportsLookupGo at h
    cases hk : sportsIdOf t with
    | error e =>
      rw [hk] at h
      exact Except.noConfusion (exceptBind_err e _ ▸ h)
    | ok k =>
      rw [hk, exceptBind_ok] at h
      rcases ih (dictUpd acc k t) L h p hp with hmem | ⟨hmem, hid⟩
      · rcases dictUpd_mem hmem with rfl | hmem2
        · exact Or.inr ⟨List.mem_cons_self _ _, hk⟩
        · exact Or.inl hmem2
      · exact Or.inr ⟨List.mem_cons_of_mem _ hmem, hid⟩

/-- Inversion of a successful `APISportsTransformer.transform`:
the records are exactly those produced by the per-team loop over the
extracted teams list with the extracted lookup. -/
theorem apiSportsTransform_ok {t s : PyVal} {recs : List PyVal}
    (h : (apiSportsTransform t s).result = .ok recs) :
    ∃ teamsList standingsList lookup,
      sportsExtract t s = .ok (teamsList, standingsList, lookup) ∧
      recs = (sportsLoop lookup teamsList).1 := by
  unfold apiSportsTransform at h
  by_cases h1 : (validate_api_sports_response t "teams").1
  · by_cases h2 : (validate_api_sports_response s "standings").1
    · by_cases h3 : (validate_api_sports_schema t s).1
      · cases hx : sportsExtract t s with
        | error e => simp [h1, h2, h3, hx] at h
        | ok trip =>
          obtain ⟨teamsList, standingsList, lookup⟩ := trip
          simp [h1, h2, h3, hx] at h
          exact ⟨teamsList, standingsList, lookup, rfl, h.symm⟩
      · simp [h1, h2, h3] at h
    · simp [h1, h2] at h
  · simp [h1] at h

/-- Inversion of a successful `sportsExtract`: the lookup is built from
the extracted standings list. -/
theorem sportsExtract_lookup {t s : PyVal} {tl sl : List PyVal} {lk : List (PyVal × PyVal)}
    (h : sportsExtract t s = .ok (tl, sl, lk)) : sportsLookupBuild sl = .ok lk := by
  unfold sportsExtract at h
  cases h1 : pySubscriptS t "response" with
  | error e => rw [h1] at h; exact Except.noConfusion (exceptBind_err e _ ▸ h)
  | ok teams =>
  rw [h1, exceptBind_ok] at h
  cases h2 : pySubscriptS s "response" with
  | error e => rw [h2] at h; exact Except.noConfusion (exceptBind_err e _ ▸ h)
  | ok resp =>
  rw [h2, exceptBind_ok] at h
  cases h3 : pySubscriptI resp 0 with
  | error e => rw [h3] at h; exact Except.noConfusion (exceptBind_err e _ ▸ h)
  | ok resp0 =>
  rw [h3, exceptBind_ok] at h
  cases h4 : pySubscriptS resp0 "league" with
  | error e => rw [h4] at h; exact Except.noConfusion (exceptBind_err e _ ▸ h)
  | ok league =>
  rw [h4, exceptBind_ok] at h
  cases h5 : pySubscriptS league "standings" with
  | error e => rw [h5] at h; exact Except.noConfusion (exceptBind_err e _ ▸ h)
  | ok souter =>
  rw [h5, exceptBind_ok] at h
  cases h6 : pySubscriptI souter 0 with
  | error e => rw [h6] at h; exact Except.noConfusion (exceptBind_err e _ ▸ h)
  | ok standings =>
  rw [h6, exceptBind_ok] at h
  cases h7 : pyIterate standings with
  | error e => rw [h7] at h; exact Except.noConfusion (exceptBind_err e _ ▸ h)
  | ok slv =>
  rw [h7, exceptBind_ok] at h
  cases h8 : sportsLookupBuild slv with
  | error e => rw [h8] at h; exact Except.noConfusion (exceptBind_err e _ ▸ h)
  | ok lkv =>
  rw [h8, exceptBind_ok] at h
  cases h9 : pyIterate teams with
  | error e => rw [h9] at h; exact Except.noConfusion (exceptBind_err e _ ▸ h)
  | ok tlv =>
  rw [h9, exceptBind_ok] at h
  simp only [pure, Except.pure, Except.ok.injEq, Prod.mk.injEq] at h
  obtain ⟨-, hsl, hlk⟩ := h
  rw [← hsl, ← hlk]
  exact h8

theorem exceptPure_eq_ok {ε α : Type} (a : α) : (pure a : Except ε α) = Except.ok a := rfl

/-- Inversion of a successful bind. -/
theorem bind_ok_inv {ε α β : Type} {x : Except ε α} {f : α → Except ε β} {b : β}
    (h : (x >>= f) = .ok b) : ∃ a, x = .ok a ∧ f a = .ok b := by
  cases x with
  | error e => rw [exceptBind_err] at h; exact Except.noConfusion h
  | ok a => exact ⟨a, rfl, by rwa [exceptBind_ok] at h⟩

/-- Inversion of a skip-or-continue conditional of the per-team loops
(the do-notation inserts a unit bind to the join point in the continue
branch): when the iteration emitted a record, the skip branch was not
taken. -/
theorem skip_if_unit_inv {c : Prop} [Decidable c]
    {jp : PUnit → Except PyErr (Option PyVal × List String × List String)}
    {m1 m2 : List String} {r : PyVal} {v t : List String}
    (h : (if c then pure (Option.none, m1, m2)
          else pure PUnit.unit >>= jp) = .ok (some r, v, t)) :
    ¬c ∧ jp PUnit.unit = .ok (some r, v, t) := by
  by_cases hc : c
  · rw [if_pos hc, exceptPure_eq_ok] at h
    exact absurd h (by simp)
  · rw [if_neg hc] at h
    exact ⟨hc, h⟩

/-- Inversion of an emitting iteration of the API-Sports loop body: the
record is the 15-field dict built from the entry's team/venue objects
and the standings entry found in the lookup under the entry's id; in
particular its `goal_diff` is the raw `goalsDiff` of that standings
entry and its `team_id` the entry's id. -/
theorem sportsBodyM_some {lookup : List (PyVal × PyVal)} {e r : PyVal}
    {v t : List String} (h : sportsBodyM lookup e = .ok (some r, v, t)) :
    ∃ team team_id standing gd,
      pyGetD e "team" emptyDict = .ok team ∧
      pyGetD team "id" PyVal.none = .ok team_id ∧
      dictFind lookup team_id = some standing ∧
      pyGetD standing "goalsDiff" PyVal.none = .ok gd ∧
      recField r "team_id" = some team_id ∧
      recField r "goal_diff" = some gd := by
  unfold sportsBodyM at h
  obtain ⟨team, h1, h⟩ := bind_ok_inv h
  obtain ⟨venue, h2, h⟩ := bind_ok_inv h
  obtain ⟨team_id, h3, h⟩ := bind_ok_inv h
  obtain ⟨-, h⟩ := skip_if_unit_inv h
  obtain ⟨hc2, h⟩ := skip_if_unit_inv h
  have h5 : dictHas lookup team_id = true := by simpa using hc2
  obtain ⟨sv, hsv⟩ := dictHas_dictFind h5
  obtain ⟨all_stats, h6, h⟩ := bind_ok_inv h
  obtain ⟨goals, h7, h⟩ := bind_ok_inv h
  obtain ⟨nameV, h8, h⟩ := bind_ok_inv h
  obtain ⟨countryV, h9, h⟩ := bind_ok_inv h
  obtain ⟨foundedV, h10, h⟩ := bind_ok_inv h
  obtain ⟨stadiumV, h11, h⟩ := bind_ok_inv h
  obtain ⟨cityV, h12, h⟩ := bind_ok_inv h
  obtain ⟨capacityV, h13, h⟩ := bind_ok_inv h
  obtain ⟨rankV, h14, h⟩ := bind_ok_inv h
  obtain ⟨pointsV, h15, h⟩ := bind_ok_inv h
  obtain ⟨goalDiffV, h16, h⟩ := bind_ok_inv h
  obtain ⟨goalsForV, h17, h⟩ := bind_ok_inv h
  obtain ⟨goalsAgainstV, h18, h⟩ := bind_ok_inv h
  obtain ⟨winV, h19, h⟩ := bind_ok_inv h
  obtain ⟨drawV, h20, h⟩ := bind_ok_inv h
  obtain ⟨loseV, h21, h⟩ := bind_ok_inv h
  obtain ⟨res, hres, h⟩ := bind_ok_inv h
  obtain ⟨-, h⟩ := skip_if_unit_inv h
  have hcomp := Except.ok.inj h
  have hTR := Option.some.inj (congrArg Prod.fst hcomp)
  rw [hsv, Option.getD_some] at h16
  exact ⟨team, team_id, sv, goalDiffV, h1, h3, hsv, h16,
    by rw [← hTR]; rfl, by rw [← hTR]; rfl⟩

/-- Membership in the records of the API-Sports per-team loop. -/
theorem sportsLoop_mem {lookup : List (PyVal × PyVal)} {es : List PyVal} {r : PyVal}
    (h : r ∈ (sportsLoop lookup es).1) :
    ∃ e ∈ es, (sportsBody lookup e).1 = some r := by
  induction es with
  | nil => simp [sportsLoop] at h
  | cons e es ih =>
    unfold sportsLoop at h
    rcases List.mem_append.1 h with hm | hm
    · refine ⟨e, List.mem_cons_self _ _, ?_⟩
      cases hb : (sportsBody lookup e).1 with
      | none => rw [hb] at hm; simp [Option.toList] at hm
      | some r2 => rw [hb] at hm; simp [Option.toList] at hm; rw [hm]
    · obtain ⟨e2, he2, hb⟩ := ih hm
      exact ⟨e2, List.mem_cons_of_mem _ he2, hb⟩

/-- An emitting loop iteration comes from a successful `try` body. -/
theorem sportsBody_some {lookup : List (PyVal × PyVal)} {e r : PyVal}
    (h : (sportsBody lookup e).1 = some r) :
    ∃ v t, sportsBodyM lookup e = .ok (some r, v, t) := by
  unfold sportsBody at h
  cases hb : sportsBodyM lookup e with
  | error e1 => rw [hb] at h; simp at h
  | ok trip =>
    obtain ⟨ro, v, t⟩ := trip
    rw [hb] at h
    simp only at h
    exact ⟨v, t, by rw [← h]⟩

/-- The triple returned by a successful `footGoals` satisfies
`goal_diff = goals_for - goals_against`. -/
theorem footGoals_shape {s : PyVal} {g : Int × Int × Int} (h : footGoals s = .ok g) :
    g.2.2 = g.1 - g.2.1 := by
  unfold footGoals at h
  obtain ⟨gfRaw, -, h⟩ := bind_ok_inv h
  obtain ⟨gf, -, h⟩ := bind_ok_inv h
  obtain ⟨gaRaw, -, h⟩ := bind_ok_inv h
  obtain ⟨ga, -, h⟩ := bind_ok_inv h
  have hg := Except.ok.inj h
  rw [← hg]

/-- A successful caught-goals computation either propagated a successful
`footGoals` or fell back to all zeroes; in both cases the difference
invariant holds. -/
theorem footGoalsCaught_cases {s : PyVal} {g : Int × Int × Int}
    (h : footGoalsCaught s = .ok g) :
    (footGoals s = .ok g ∨ (g.1 = 0 ∧ g.2.1 = 0)) ∧ g.2.2 = g.1 - g.2.1 := by
  unfold footGoalsCaught at h
  cases hf : footGoals s with
  | ok g2 =>
    rw [hf] at h
    have hg := Except.ok.inj h
    subst hg
    exact ⟨Or.inl rfl, footGoals_shape hf⟩
  | error e =>
    rw [hf] at h
    cases e with
    | valueError =>
      have hg := Except.ok.inj h
      rw [← hg]
      exact ⟨Or.inr ⟨rfl, rfl⟩, rfl⟩
    | typeError =>
      have hg := Except.ok.inj h
      rw [← hg]
      exact ⟨Or.inr ⟨rfl, rfl⟩, rfl⟩
    | keyError k => exact Except.noConfusion h
    | indexError => exact Except.noConfusion h
    | attributeError => exact Except.noConfusion h

/-- Inversion of an emitting iteration of the API-Football loop body. -/
theorem footBodyM_some {lookup : List (Int × PyVal)} {e r : PyVal} {v t : List String}
    (h : footBodyM lookup e = .ok (some r, v, t)) :
    ∃ team_key standing, ∃ team_id : Int, ∃ g : Int × Int × Int,
      pyGetD e "team_key" PyVal.none = .ok team_key ∧
      pyInt team_key = .ok team_id ∧
      dictFind lookup team_id = some standing ∧
      footGoalsCaught standing = .ok g ∧
      recField r "team_id" = some (.int team_id) ∧
      recField r "goals_for" = some (.int g.1) ∧
      recField r "goals_against" = some (.int g.2.1) ∧
      recField r "goal_diff" = some (.int g.2.2) := by
  unfold footBodyM at h
  obtain ⟨team_key, h1, h⟩ := bind_ok_inv h
  obtain ⟨-, h⟩ := skip_if_unit_inv h
  obtain ⟨team_id, h2, h⟩ := bind_ok_inv h
  obtain ⟨hc2, h⟩ := skip_if_unit_inv h
  have h5 : dictHas lookup team_id = true := by simpa using hc2
  obtain ⟨sv, hsv⟩ := dictHas_dictFind h5
  obtain ⟨g, hg, h⟩ := bind_ok_inv h
  obtain ⟨venue, h6, h⟩ := bind_ok_inv h
  obtain ⟨nameV, h7, h⟩ := bind_ok_inv h
  obtain ⟨countryV, h8, h⟩ := bind_ok_inv h
  obtain ⟨foundedV, h9, h⟩ := bind_ok_inv h
  obtain ⟨stadiumV, h10, h⟩ := bind_ok_inv h
  obtain ⟨cityV, h11, h⟩ := bind_ok_inv h
  obtain ⟨capacityV, h12, h⟩ := bind_ok_inv h
  obtain ⟨rankRaw, h13, h⟩ := bind_ok_inv h
  obtain ⟨rank, h14, h⟩ := bind_ok_inv h
  obtain ⟨ptsRaw, h15, h⟩ := bind_ok_inv h
  obtain ⟨points, h16, h⟩ := bind_ok_inv h
  obtain ⟨winRaw, h17, h⟩ := bind_ok_inv h
  obtain ⟨win, h18, h⟩ := bind_ok_inv h
  obtain ⟨drawRaw, h19, h⟩ := bind_ok_inv h
  obtain ⟨draw, h20, h⟩ := bind_ok_inv h
  obtain ⟨loseRaw, h21, h⟩ := bind_ok_inv h
  obtain ⟨lose, h22, h⟩ := bind_ok_inv h
  obtain ⟨res, hres, h⟩ := bind_ok_inv h
  obtain ⟨-, h⟩ := skip_if_unit_inv h
  have hcomp := Except.ok.inj h
  have hTR := Option.some.inj (congrArg Prod.fst hcomp)
  rw [hsv, Option.getD_some] at hg
  exact ⟨team_key, sv, team_id, g, h1, h2, hsv, hg,
    by rw [← hTR]; rfl, by rw [← hTR]; rfl, by rw [← hTR]; rfl, by rw [← hTR]; rfl⟩

/-- An emitting foot-loop iteration comes from a successful `try` body. -/
theorem footBody_some {lookup : List (Int × PyVal)} {e r : PyVal}
    (h : (footBody lookup e).1 = some r) :
    ∃ v t, footBodyM lookup e = .ok (some r, v, t) := by
  unfold footBody at h
  cases hb : footBodyM lookup e with
  | error e1 => rw [hb] at h; simp at h
  | ok trip =>
    obtain ⟨ro, v, t⟩ := trip
    rw [hb] at h
    simp only at h
    exact ⟨v, t, by rw [← h]⟩

/-- Each pair added to the API-Football lookup in one step comes from the
processed entry or was already present. -/
theorem footLookupStep_mem {acc acc2 : List (Int × PyVal)} {t : PyVal}
    (h : footLookupStep acc t = .ok acc2) :
    ∀ p ∈ acc2, p ∈ acc ∨ p.2 = t := by
  unfold footLookupStep at h
  obtain ⟨raw, hraw, h⟩ := bind_ok_inv h
  cases hi : pyInt raw with
  | ok id =>
    rw [hi] at h
    have h2 := Except.ok.inj h
    intro p hp
    rw [← h2] at hp
    rcases dictUpd_mem hp with hq | hq
    · exact Or.inr (by rw [hq])
    · exact Or.inl hq
  | error e =>
    rw [hi] at h
    cases e with
    | valueError =>
      have h2 := Except.ok.inj h
      intro p hp
      rw [← h2] at hp
      exact Or.inl hp
    | typeError =>
      have h2 := Except.ok.inj h
      intro p hp
      rw [← h2] at hp
      exact Or.inl hp
    | keyError k => exact Except.noConfusion h
    | indexError => exact Except.noConfusion h
    | attributeError => exact Except.noConfusion h

/-- Every pair in the API-Football standings lookup comes from a
standings entry. -/
theorem footLookupGo_mem (xs : List PyVal) :
    ∀ acc L, footLookupGo acc xs = .ok L →
      ∀ p ∈ L, p ∈ acc ∨ p.2 ∈ xs := by
  induction xs with
  | nil =>
    intro acc L h p hp
    simp only [footLookupGo, Except.ok.injEq] at h
    exact Or.inl (h ▸ hp)
  | cons t ts ih =>
    intro acc L h p hp
    unfold footLookupGo at h
    obtain ⟨acc2, hstep, h⟩ := bind_ok_inv h
    rcases ih acc2 L h p hp with hmem | hmem
    · rcases footLookupStep_mem hstep p hmem with hq | hq
      · exact Or.inl hq
      · exact Or.inr (hq ▸ List.mem_cons_self _ _)
    · exact Or.inr (List.mem_cons_of_mem _ hmem)

/-- Inversion of a successful `APIFootballTransformer.transform`. -/
theorem apiFootballTransform_ok {t s : PyVal} {recs : List PyVal}
    (h : (apiFootballTransform t s).result = .ok recs) :
    ∃ lookup, footLookupBuild (pyListElems s) = .ok lookup ∧
      recs = (footLoop lookup (pyListElems t)).1 := by
  unfold apiFootballTransform at h
  by_cases h1 : (validate_api_football_response t "teams").1
  · by_cases h2 : (validate_api_football_response s "standings").1
    · by_cases h3 : (validate_api_football_schema t s).1
      · cases hx : footLookupBuild (pyListElems s) with
        | error e => simp [h1, h2, h3, hx] at h
        | ok lookup =>
          simp [h1, h2, h3, hx] at h
          exact ⟨lookup, rfl, h.symm⟩
      · simp [h1, h2, h3] at h
    · simp [h1, h2] at h
  · simp [h1] at h

/-- Membership in the records of the API-Football per-team loop. -/
theorem footLoop_mem {lookup : List (Int × PyVal)} {es : List PyVal} {r : PyVal}
    (h : r ∈ (footLoop lookup es).1) :
    ∃ e ∈ es, (footBody lookup e).1 = some r := by
  induction es with
  | nil => simp [footLoop] at h
  | cons e es ih =>
    unfold footLoop at h
    rcases List.mem_append.1 h with hm | hm
    · refine ⟨e, List.mem_cons_self _ _, ?_⟩
      cases hb : (footBody lookup e).1 with
      | none => rw [hb] at hm; simp [Option.toList] at hm
      | some r2 => rw [hb] at hm; simp [Option.toList] at hm; rw [hm]
    · obtain ⟨e2, he2, hb⟩ := ih hm
      exact ⟨e2, List.mem_cons_of_mem _ he2, hb⟩

/-! ## Theorems: `goal_diff` derivation (C9) -/

/-- C9: for every joinable team record, the unified field `goal_diff`
equals the value supplied directly by the source when the source
supplies it (source A's raw `goalsDiff`), and otherwise equals
`goals_for - goals_against` computed from the standings entry (source
B), with `goal_diff`, `goals_for`, `goals_against` all defaulting to
zero on any numeric-coercion failure. -/
theorem C9_goal_diff (tA sA tB sB : PyVal) :
    (∀ recs r teamsList standingsList lookup,
        (apiSportsTransform tA sA).result = .ok recs →
        sportsExtract tA sA = .ok (teamsList, standingsList, lookup) →
        r ∈ recs →
        ∃ standing, standing ∈ standingsList ∧ ∃ gd,
          pyGetD standing "goalsDiff" PyVal.none = .ok gd ∧
          recField r "goal_diff" = some gd) ∧
    (∀ recs r,
        (apiFootballTransform tB sB).result = .ok recs →
        r ∈ recs →
        ∃ gf ga : Int,
          recField r "goals_for" = some (.int gf) ∧
          recField r "goals_against" = some (.int ga) ∧
          recField r "goal_diff" = some (.int (gf - ga)) ∧
          ((∃ standing ∈ pyListElems sB, footGoals standing = .ok (gf, ga, gf - ga)) ∨
            (gf = 0 ∧ ga = 0))) := by
  constructor
  · intro recs r teamsList standingsList lookup hres hext hr
    obtain ⟨tl2, sl2, lk2, hext2, hrecs⟩ := apiSportsTransform_ok hres
    have hE := Except.ok.inj (hext.symm.trans hext2)
    obtain ⟨hE1, hE2, hE3⟩ : teamsList = tl2 ∧ standingsList = sl2 ∧ lookup = lk2 :=
      ⟨congrArg (fun p => p.1) hE, congrArg (fun p => p.2.1) hE,
        congrArg (fun p => p.2.2) hE⟩
    subst hE1
    subst hE2
    subst hE3
    rw [hrecs] at hr
    obtain ⟨e, he, hbody⟩ := sportsLoop_mem hr
    obtain ⟨v2, t2, hM⟩ := sportsBody_some hbody
    obtain ⟨team, team_id, standing, gd, -, -, hfind, hgd, -, hgdf⟩ := sportsBodyM_some hM
    have hb := sportsExtract_lookup hext
    have hmem := sportsLookupGo_mem standingsList [] lookup hb (team_id, standing)
      (dictFind_mem hfind)
    rcases hmem with habs | ⟨hm, -⟩
    · simp at habs
    · exact ⟨standing, hm, gd, hgd, hgdf⟩
  · intro recs r hres hr
    obtain ⟨lookup, hb, hrecs⟩ := apiFootballTransform_ok hres
    rw [hrecs] at hr
    obtain ⟨e, he, hbody⟩ := footLoop_mem hr
    obtain ⟨v2, t2, hM⟩ := footBody_some hbody
    obtain ⟨team_key, standing, team_id, g, -, -, hfind, hg, -, hgf, hga, hgd⟩ :=
      footBodyM_some hM
    obtain ⟨gf, ga, gd⟩ := g
    obtain ⟨hor, hshape⟩ := footGoalsCaught_cases hg
    simp only at hgf hga hgd hor hshape
    subst hshape
    refine ⟨gf, ga, hgf, hga, hgd, ?_⟩
    rcases hor with hok | hzero
    · left
      have hmem := footLookupGo_mem (pyListElems sB) [] lookup hb (team_id, standing)
        (dictFind_mem hfind)
      rcases hmem with habs | hm
      · simp at habs
      · exact ⟨standing, hm, hok⟩
    · right
      exact hzero

/-- One well-formed API-Sports team entry (id 10). -/
def sEntryA : PyVal :=
  .dict [
    ("team", .dict [("id", .int 10), ("name", .str "X"), ("country", .str "E"),
      ("founded", .int 1900)]),
    ("venue", .dict [("name", .str "S"), ("city", .str "C"), ("capacity", .int 100)])]

/-- The matching API-Sports standings entry for team 10. -/
def sStand0 : PyVal :=
  .dict [("team", .dict [("id", .int 10)]), ("rank", .int 1), ("points", .int 30),
    ("goalsDiff", .int 5),
    ("all", .dict [("win", .int 9), ("draw", .int 3), ("lose", .int 2),
      ("goals", .dict [("for", .int 30), ("against", .int 25)])])]

/-- A well-formed API-Sports teams payload with one team. -/
def sTeamsA : PyVal := .dict [("response", .list [sEntryA])]

/-- A well-formed API-Sports standings payload for that team. -/
def sStandA : PyVal :=
  .dict [("response", .list [
    .dict [("league", .dict [("standings", .list [.list [sStand0]])])]])]

/-- The unified record the API-Sports transform emits for `sEntryA`. -/
def sRec0 : PyVal :=
  .dict [("team_id", .int 10), ("name", .str "X"), ("country", .str "E"),
    ("founded", .int 1900), ("stadium", .str "S"), ("city", .str "C"),
    ("capacity", .int 100), ("rank", .int 1), ("points", .int 30),
    ("goal_diff", .int 5), ("goals_for", .int 30), ("goals_against", .int 25),
    ("win", .int 9), ("draw", .int 3), ("lose", .int 2)]

/-- One well-formed API-Football team entry (key "7"). -/
def fEntryB : PyVal :=
  .dict [("team_key", .str "7"), ("team_name", .str "B"), ("team_country", .str "E"),
    ("team_founded", .str "1900"),
    ("venue", .dict [("venue_name", .str "V"), ("venue_city", .str "W"),
      ("venue_capacity", .str "5")])]

/-- The matching API-Football standings entry for team 7. -/
def fStand0 : PyVal :=
  .dict [("team_id", .str "7"), ("overall_league_position", .str "1"),
    ("overall_league_PTS", .str "20"), ("overall_league_GF", .str "12"),
    ("overall_league_GA", .str "7"), ("overall_league_W", .str "6"),
    ("overall_league_D", .str "2"), ("overall_league_L", .str "1")]

/-- A well-formed API-Football teams payload with one team. -/
def fTeamsB : PyVal := .list [fEntryB]

/-- A well-formed API-Football standings payload for that team. -/
def fStandB : PyVal := .list [fStand0]

/-- The unified record the API-Football transform emits for `fEntryB`. -/
def fRec0 : PyVal :=
  .dict [("team_id", .int 7), ("name", .str "B"), ("country", .str "E"),
    ("founded", .str "1900"), ("stadium", .str "V"), ("city", .str "W"),
    ("capacity", .str "5"), ("rank", .int 1), ("points", .int 20),
    ("goal_diff", .int 5), ("goals_for", .int 12), ("goals_against", .int 7),
    ("win", .int 6), ("draw", .int 2), ("lose", .int 1)]

theorem C9_witness :
    (∃ standing, standing ∈ [sStand0] ∧ ∃ gd,
      pyGetD standing "goalsDiff" PyVal.none = .ok gd ∧
      recField sRec0 "goal_diff" = some gd) ∧
    (∃ gf ga : Int,
      recField fRec0 "goals_for" = some (.int gf) ∧
      recField fRec0 "goals_against" = some (.int ga) ∧
      recField fRec0 "goal_diff" = some (.int (gf - ga)) ∧
      ((∃ standing ∈ pyListElems fStandB, footGoals standing = .ok (gf, ga, gf - ga)) ∨
        (gf = 0 ∧ ga = 0))) := by
  have h := C9_goal_diff sTeamsA sStandA fTeamsB fStandB
  exact ⟨h.1 [sRec0] sRec0 [sEntryA] [sStand0] [(.int 10, sStand0)]
      (by decide) (by decide) (by decide),
    h.2 [fRec0] fRec0 (by decide) (by decide)⟩

/-! ## Theorems: `team_id` uniqueness (C10) -/

/-- The resolved identifier of an API-Sports team entry:
`team_entry.get("team", {}).get("id")`, `Option.none` when resolution
raises. -/
def sportsEntryId (e : PyVal) : Option PyVal :=
  match pyGetD e "team" emptyDict with
  | .error _ => Option.none
  | .ok team =>
    match pyGetD team "id" PyVal.none with
    | .error _ => Option.none
    | .ok id => some id

/-- The resolved identifier of an API-Football team entry:
`int(team_entry.get("team_key"))`, `Option.none` when resolution
raises. -/
def footEntryId (e : PyVal) : Option PyVal :=
  match pyGetD e "team_key" PyVal.none with
  | .error _ => Option.none
  | .ok tk =>
    match pyInt tk with
    | .error _ => Option.none
    | .ok n => some (PyVal.int n)

/-- An emitted API-Sports record carries its entry's resolved id. -/
theorem sportsBody_entryId {lookup : List (PyVal × PyVal)} {e r : PyVal}
    (h : (sportsBody lookup e).1 = some r) :
    recField r "team_id" = sportsEntryId e ∧ (sportsEntryId e).isSome := by
  obtain ⟨v2, t2, hM⟩ := sportsBody_some h
  obtain ⟨team, team_id, standing, gd, h1, h3, -, -, hid, -⟩ := sportsBodyM_some hM
  unfold sportsEntryId
  rw [h1]
  simp [h3, hid]

/-- An emitted API-Football record carries its entry's resolved id. -/
theorem footBody_entryId {lookup : List (Int × PyVal)} {e r : PyVal}
    (h : (footBody lookup e).1 = some r) :
    recField r "team_id" = footEntryId e ∧ (footEntryId e).isSome := by
  obtain ⟨v2, t2, hM⟩ := footBody_some h
  obtain ⟨team_key, standing, team_id, g, h1, h2, -, -, hid, -⟩ := footBodyM_some hM
  unfold footEntryId
  rw [h1]
  simp [h2, hid]

/-- The record list of the API-Sports loop as a `filterMap`. -/
theorem sportsLoop_eq_filterMap (lookup : List (PyVal × PyVal)) (es : List PyVal) :
    (sportsLoop lookup es).1 = es.filterMap (fun e => (sportsBody lookup e).1) := by
  induction es with
  | nil => rfl
  | cons e es ih =>
    unfold sportsLoop
    cases hb : (sportsBody lookup e).1 <;>
      simp [hb, ih, List.filterMap_cons, Option.toList]

/-- The record list of the API-Football loop as a `filterMap`. -/
theorem footLoop_eq_filterMap (lookup : List (Int × PyVal)) (es : List PyVal) :
    (footLoop lookup es).1 = es.filterMap (fun e => (footBody lookup e).1) := by
  induction es with
  | nil => rfl
  | cons e es ih =>
    unfold footLoop
    cases hb : (footBody lookup e).1 <;>
      simp [hb, ih, List.filterMap_cons, Option.toList]

theorem filterMap_sublist_pointwise {α β : Type} {f g : α → Option β} {l : List α}
    (h : ∀ a ∈ l, f a = Option.none ∨ f a = g a) :
    List.Sublist (l.filterMap f) (l.filterMap g) := by
  induction l with
  | nil => simp
  | cons a t ih =>
    have iht := ih (fun x hx => h x (List.mem_cons_of_mem _ hx))
    rcases h a (List.mem_cons_self _ _) with hf | hf
    · rw [List.filterMap_cons, hf]
      cases hg : g a with
      | none => rw [List.filterMap_cons, hg]; exact iht
      | some b => rw [List.filterMap_cons, hg]; exact iht.cons b
    · rw [List.filterMap_cons, hf, List.filterMap_cons]
      cases hg : g a with
      | none => exact iht
      | some b => exact iht.cons₂ b

/-- C10 counterexample: a well-formed teams payload that contains the
same team entry twice makes the transform succeed with two records
sharing `team_id` 10 — nothing deduplicates, so the emitted ids are not
pairwise distinct. -/
theorem C10_counterexample :
    (apiSportsTransform (.dict [("response", .list [sEntryA, sEntryA])]) sStandA).result =
      .ok [sRec0, sRec0] ∧
    ¬ ([sRec0, sRec0].filterMap (fun r => recField r "team_id")).Nodup := by
  constructor
  · decide
  · decide

/-- C10 (amended): for every successful run of `transform` on either
source, the emitted `team_id` values are pairwise distinct provided no
two entries of that run's teams payload resolve to the same identifier
(the emitted ids form a subsequence of the entries' resolved ids; the
code never deduplicates, so duplicate entries yield duplicate ids). -/
theorem C10_unique_ids (tA sA tB sB : PyVal) :
    (∀ recs teamsList standingsList lookup,
        (apiSportsTransform tA sA).result = .ok recs →
        sportsExtract tA sA = .ok (teamsList, standingsList, lookup) →
        (teamsList.filterMap sportsEntryId).Nodup →
        (recs.filterMap (fun r => recField r "team_id")).Nodup) ∧
    (∀ recs,
        (apiFootballTransform tB sB).result = .ok recs →
        ((pyListElems tB).filterMap footEntryId).Nodup →
        (recs.filterMap (fun r => recField r "team_id")).Nodup) := by
  constructor
  · intro recs teamsList standingsList lookup hres hext hnd
    obtain ⟨tl2, sl2, lk2, hext2, hrecs⟩ := apiSportsTransform_ok hres
    have hE := Except.ok.inj (hext.symm.trans hext2)
    obtain ⟨hE1, hE2, hE3⟩ : teamsList = tl2 ∧ standingsList = sl2 ∧ lookup = lk2 :=
      ⟨congrArg (fun p => p.1) hE, congrArg (fun p => p.2.1) hE,
        congrArg (fun p => p.2.2) hE⟩
    subst hE1
    subst hE2
    subst hE3
    rw [hrecs, sportsLoop_eq_filterMap, List.filterMap_filterMap]
    refine List.Nodup.sublist (filterMap_sublist_pointwise ?_) hnd
    intro e _
    cases hb : (sportsBody lookup e).1 with
    | none => exact Or.inl rfl
    | some r =>
      right
      simpa using (sportsBody_entryId hb).1
  · intro recs hres hnd
    obtain ⟨lookup, hb, hrecs⟩ := apiFootballTransform_ok hres
    rw [hrecs, footLoop_eq_filterMap, List.filterMap_filterMap]
    refine List.Nodup.sublist (filterMap_sublist_pointwise ?_) hnd
    intro e _
    cases hbe : (footBody lookup e).1 with
    | none => exact Or.inl rfl
    | some r =>
      right
      simpa using (footBody_entryId hbe).1

theorem C10_witness :
    ([sRec0].filterMap (fun r => recField r "team_id")).Nodup ∧
    ([fRec0].filterMap (fun r => recField r "team_id")).Nodup := by
  have h := C10_unique_ids sTeamsA sStandA fTeamsB fStandB
  exact ⟨h.1 [sRec0] [sEntryA] [sStand0] [(.int 10, sStand0)]
      (by decide) (by decide) (by decide),
    h.2 [fRec0] (by decide) (by decide)⟩

end ETL
